import Mathlib

/-!
Verification of the odysail marine-telemetry core against its specification.

The Go sources are shallowly embedded: byte payloads are `List Nat` (each
element a byte value), machine integers are `Nat`/`Int` with explicit masks,
`float64` quantities are modelled as exact rationals `ℚ` (the claims settled
here depend only on which fields appear and on exact algebraic identities,
never on floating-point rounding), and Go `nil`/panic outcomes are `Option`.
-/

namespace Odysail

/-- Field values stored in a decoded-message field map.  The Go map holds
`interface{}` values; the decoders installed here store numbers and strings. -/
inductive FieldVal where
  | num (q : ℚ)
  | str (s : String)
  deriving DecidableEq, Repr

/-- Embeds `storage.DecodedMessage` / `nmea.DecodedMessage` (types.go).
`fields = none` embeds a Go `nil` map (no handler / insufficient bytes);
timestamps are milliseconds since epoch as in `Timestamp.UnixMilli`. -/
structure DecodedMessage where
  timestamp : Int
  pgn : Nat
  pgnName : String
  source : Nat
  measurement : String
  fields : Option (List (String × FieldVal))
  deriving DecidableEq, Repr

instance : Inhabited DecodedMessage :=
  ⟨{ timestamp := 0, pgn := 0, pgnName := "", source := 0,
     measurement := "", fields := none }⟩

/-- Looks a field up in a message's field map and requires it to be numeric:
embeds the Go pattern `msg.Fields[key].(float64)` (type assertion fails on a
`nil` map, a missing key, and a non-numeric value alike). -/
def DecodedMessage.numField (m : DecodedMessage) (key : String) : Option ℚ :=
  match m.fields with
  | none => none
  | some fs =>
    match fs.lookup key with
    | some (FieldVal.num q) => some q
    | _ => none

/-! ### Ring buffer with latest-by-PGN index (memory_buffer.go) -/

/-- Embeds `storage.RingBuffer`: a circular array `data` of length
`capacity`, a `head` cursor, the current `size`, and the latest-by-PGN map
(embedded as a function, matching Go map semantics of at most one entry per
key). -/
structure RingBuffer where
  data : List DecodedMessage
  head : Nat
  size : Nat
  capacity : Nat
  latestByPGN : Nat → Option DecodedMessage

/-- Embeds `storage.NewRingBuffer`: zero-valued slots, empty index. -/
def newRingBuffer (capacity : Nat) : RingBuffer :=
  { data := List.replicate capacity default
    head := 0
    size := 0
    capacity := capacity
    latestByPGN := fun _ => none }

/-- Embeds `(*RingBuffer).Push` (memory_buffer.go lines 29–43). -/
def RingBuffer.push (rb : RingBuffer) (msg : DecodedMessage) : RingBuffer :=
  { data := rb.data.set rb.head msg
    head := (rb.head + 1) % rb.capacity
    size := if rb.size < rb.capacity then rb.size + 1 else rb.size
    capacity := rb.capacity
    latestByPGN := fun p => if p = msg.pgn then some msg else rb.latestByPGN p }

/-- Embeds `(*RingBuffer).GetRecent` (memory_buffer.go lines 45–60): index
`(head - 1 - i + capacity) % capacity` computed in `Int` exactly as the Go
`int` arithmetic does, then used to read the array. -/
def RingBuffer.getRecent (rb : RingBuffer) (n : Nat) : List DecodedMessage :=
  let n' := if n > rb.size then rb.size else n
  (List.range n').map fun (i : Nat) =>
    rb.data.getD
      (((rb.head : Int) - 1 - (i : Int) + rb.capacity) % rb.capacity).toNat default

/-- Embeds `(*RingBuffer).GetLatestByPGN` (memory_buffer.go lines 79–87). -/
def RingBuffer.getLatestByPGN (rb : RingBuffer) (pgn : Nat) : Option DecodedMessage :=
  rb.latestByPGN pgn

/-- Sequentially pushing a list of messages (oldest first). -/
def pushAll (rb : RingBuffer) (ms : List DecodedMessage) : RingBuffer :=
  ms.foldl RingBuffer.push rb

/-! ### PGN derivation from CAN-ID parts (decoder.go `PGNFromParts`) -/

/-- Embeds `nmea.PGNFromParts` (decoder.go lines 513–520).  Arguments are `uint8`
values, embedded as naturals below 256; the masks are written as in the
source. -/
def PGNFromParts (dp pf ps : Nat) : Nat :=
  let base := ((dp &&& 0x01) <<< 16) ||| ((pf &&& 0xFF) <<< 8)
  if pf < 240 then base else base ||| (ps &&& 0xFF)

/-! ### Byte readers (decoder.go lines 55–102)

Payloads are `List Nat` of byte values; offsets are `Int`, matching the Go
`int` parameter.  Each reader first performs the source's bounds check and
returns the width's sentinel when it triggers; otherwise it assembles the
little-endian value.  A Go panic is possible only in the read branch with a
negative offset; each reader has a companion `...Panics` predicate capturing
exactly that situation (the read itself cannot run past the end: the bounds
check already excludes it). -/

/-- Two's-complement reinterpretation of a `w`-bit unsigned value, embedding
Go's `int8(...)`, `int16(...)`, `int32(...)`, `int64(...)` conversions. -/
def toSigned (w : Nat) (v : Nat) : Int :=
  if v < 2 ^ (w - 1) then (v : Int) else (v : Int) - 2 ^ w

/-- Embeds `u8` (decoder.go lines 55–60). -/
def u8 (data : List Nat) (offset : Int) : Nat :=
  if offset ≥ data.length then 0xFF
  else data.getD offset.toNat 0

/-- Embeds `u16le` (decoder.go lines 62–67). -/
def u16le (data : List Nat) (offset : Int) : Nat :=
  if offset + 1 ≥ data.length then 0xFFFF
  else data.getD offset.toNat 0 + 256 * data.getD (offset.toNat + 1) 0

/-- Embeds `u32le` (decoder.go lines 69–74). -/
def u32le (data : List Nat) (offset : Int) : Nat :=
  if offset + 3 ≥ data.length then 0xFFFFFFFF
  else data.getD offset.toNat 0 + 256 * data.getD (offset.toNat + 1) 0
    + 65536 * data.getD (offset.toNat + 2) 0
    + 16777216 * data.getD (offset.toNat + 3) 0

/-- Little-endian accumulation of `w` bytes starting at a natural offset;
helper for the wide signed readers. -/
def leBytes (data : List Nat) (start w : Nat) : Nat :=
  (List.range w).foldr (fun k acc => data.getD (start + k) 0 + 256 * acc) 0

/-- Embeds `i8` (decoder.go lines 76–81). -/
def i8 (data : List Nat) (offset : Int) : Int :=
  if offset ≥ data.length then 0x7F
  else toSigned 8 (data.getD offset.toNat 0)

/-- Embeds `i16le` (decoder.go lines 83–88). -/
def i16le (data : List Nat) (offset : Int) : Int :=
  if offset + 1 ≥ data.length then 0x7FFF
  else toSigned 16 (leBytes data offset.toNat 2)

/-- Embeds `i32le` (decoder.go lines 90–95). -/
def i32le (data : List Nat) (offset : Int) : Int :=
  if offset + 3 ≥ data.length then 0x7FFFFFFF
  else toSigned 32 (leBytes data offset.toNat 4)

/-- Embeds `i64le` (decoder.go lines 97–102). -/
def i64le (data : List Nat) (offset : Int) : Int :=
  if offset + 7 ≥ data.length then 0x7FFFFFFFFFFFFFFF
  else toSigned 64 (leBytes data offset.toNat 8)

/-- The Go `u8` panics exactly when the bounds check does not trigger and the
offset is negative (a negative slice index). -/
def u8Panics (data : List Nat) (offset : Int) : Prop :=
  ¬ offset ≥ data.length ∧ offset < 0

/-- Panic condition of the Go two-byte readers (`u16le`, `i16le`). -/
def r16Panics (data : List Nat) (offset : Int) : Prop :=
  ¬ offset + 1 ≥ data.length ∧ offset < 0

/-- Panic condition of the Go four-byte readers (`u32le`, `i32le`). -/
def r32Panics (data : List Nat) (offset : Int) : Prop :=
  ¬ offset + 3 ≥ data.length ∧ offset < 0

/-- Panic condition of the Go eight-byte reader (`i64le`). -/
def r64Panics (data : List Nat) (offset : Int) : Prop :=
  ¬ offset + 7 ≥ data.length ∧ offset < 0

/-! ### PGN decoders (decoder.go, both parts)

Field values are exact rationals.  Decimal literals of the source
(`0.0001`, `1.94384`, `185.2`, `273.15`, …) are embedded as the rationals
they denote; `math.Pi` is embedded as the exact value of the `float64`
constant.  None of the claims inspects a converted value, only which keys a
decoder emits, so float rounding is immaterial here.  Formatted date/time
strings (`time.Format` output) are abstracted to a rendering of their
numeric inputs; no claim inspects them either. -/

/-- A decoded field map: insertion-ordered association list standing for the
Go `map[string]interface{}`. -/
abbrev FieldMap := List (String × FieldVal)

/-- Exact value of the Go `math.Pi` float64 constant. -/
def goPi : ℚ := 884279719003555 / 281474976710656

/-- Abstract rendering of the date/time strings built by decoders 129029,
129284 and 126992 from a day count and a 0.1-ms count. -/
def formatDayMs (days ms : Nat) : String :=
  Nat.repr days ++ "+" ++ Nat.repr ms

/-- Embeds `decodePGN127257` — Attitude (decoder.go lines 106–139). -/
def decodePGN127257 (data : List Nat) : Option FieldMap :=
  if data.length < 7 then none
  else
    let sid := u8 data 0
    let yawRaw := i16le data 1
    let pitchRaw := i16le data 3
    let rollRaw := i16le data 5
    some (
      [("sid", FieldVal.num (sid : ℚ))]
      ++ (if yawRaw ≠ 0x7FFF then
            let yaw : ℚ := (yawRaw : ℚ) * (1 / 10000)
            [("yaw_rad", FieldVal.num yaw), ("yaw_deg", FieldVal.num (yaw * 180 / goPi))]
          else [])
      ++ (if pitchRaw ≠ 0x7FFF then
            let pitch : ℚ := (pitchRaw : ℚ) * (1 / 10000)
            [("pitch_rad", FieldVal.num pitch), ("pitch_deg", FieldVal.num (pitch * 180 / goPi))]
          else [])
      ++ (if rollRaw ≠ 0x7FFF then
            let roll : ℚ := (rollRaw : ℚ) * (1 / 10000)
            [("roll_rad", FieldVal.num roll), ("roll_deg", FieldVal.num (roll * 180 / goPi)),
             ("heel_angle", FieldVal.num (roll * 180 / goPi))]
          else []))

/-- Embeds `decodePGN130306` — Wind Data (decoder.go lines 142–169). -/
def decodePGN130306 (data : List Nat) : Option FieldMap :=
  if data.length < 6 then none
  else
    let sid := u8 data 0
    let wsRaw := u16le data 1
    let waRaw := u16le data 3
    let ref := u8 data 5
    some (
      [("sid", FieldVal.num (sid : ℚ)), ("wind_reference", FieldVal.num (ref : ℚ))]
      ++ (if wsRaw ≠ 0xFFFF then
            let windSpeed : ℚ := (wsRaw : ℚ) * (1 / 100)
            [("wind_speed_ms", FieldVal.num windSpeed),
             ("wind_speed_kts", FieldVal.num (windSpeed * (194384 / 100000)))]
          else [])
      ++ (if waRaw ≠ 0xFFFF then
            let windAngle : ℚ := (waRaw : ℚ) * (1 / 10000)
            [("wind_angle_rad", FieldVal.num windAngle),
             ("wind_angle_deg", FieldVal.num (windAngle * 180 / goPi))]
          else []))

/-- Embeds `decodePGN129026` — COG & SOG Rapid Update (decoder.go lines 172–197). -/
def decodePGN129026 (data : List Nat) : Option FieldMap :=
  if data.length < 8 then none
  else
    let sid := u8 data 0
    let cogRaw := u16le data 1
    let sogRaw := u16le data 3
    some (
      [("sid", FieldVal.num (sid : ℚ))]
      ++ (if cogRaw ≠ 0xFFFF then
            let cog : ℚ := (cogRaw : ℚ) * (1 / 10000)
            [("cog_rad", FieldVal.num cog), ("cog_deg", FieldVal.num (cog * 180 / goPi))]
          else [])
      ++ (if sogRaw ≠ 0xFFFF then
            let sog : ℚ := (sogRaw : ℚ) * (1 / 100)
            [("sog_ms", FieldVal.num sog),
             ("sog_kts", FieldVal.num (sog * (194384 / 100000)))]
          else []))

/-- Embeds `decodePGN127250` — Vessel Heading (decoder.go lines 200–234). -/
def decodePGN127250 (data : List Nat) : Option FieldMap :=
  if data.length < 8 then none
  else
    let sid := u8 data 0
    let headingRaw := u16le data 1
    let deviationRaw := i16le data 3
    let variationRaw := i16le data 5
    let ref := u8 data 7
    some (
      [("sid", FieldVal.num (sid : ℚ)), ("heading_reference", FieldVal.num (ref : ℚ))]
      ++ (if headingRaw ≠ 0xFFFF then
            let heading : ℚ := (headingRaw : ℚ) * (1 / 10000)
            [("heading_rad", FieldVal.num heading),
             ("heading_deg", FieldVal.num (heading * 180 / goPi))]
          else [])
      ++ (if deviationRaw ≠ 0x7FFF then
            let deviation : ℚ := (deviationRaw : ℚ) * (1 / 10000)
            [("deviation_rad", FieldVal.num deviation),
             ("deviation_deg", FieldVal.num (deviation * 180 / goPi))]
          else [])
      ++ (if variationRaw ≠ 0x7FFF then
            let variation : ℚ := (variationRaw : ℚ) * (1 / 10000)
            [("variation_rad", FieldVal.num variation),
             ("variation_deg", FieldVal.num (variation * 180 / goPi))]
          else []))

/-- Embeds `decodePGN127251` — Rate of Turn (decoder.go lines 237–269). -/
def decodePGN127251 (data : List Nat) : Option FieldMap :=
  if data.length ≥ 8 then
    let sid := u8 data 0
    let rotRaw := i32le data 1
    some (
      [("sid", FieldVal.num (sid : ℚ))]
      ++ (if rotRaw ≠ 0x7FFFFFFF then
            let rot : ℚ := (rotRaw : ℚ) * (3125 / 100000000000)
            [("rate_of_turn_rad_s", FieldVal.num rot),
             ("rate_of_turn_deg_s", FieldVal.num (rot * 180 / goPi))]
          else []))
  else if data.length ≥ 3 then
    let sid := u8 data 0
    let rotRaw := i16le data 1
    some (
      [("sid", FieldVal.num (sid : ℚ))]
      ++ (if rotRaw ≠ 0x7FFF then
            let rot : ℚ := (rotRaw : ℚ) * (1 / 10000)
            [("rate_of_turn_rad_s", FieldVal.num rot),
             ("rate_of_turn_deg_s", FieldVal.num (rot * 180 / goPi))]
          else []))
  else none

/-- Embeds `decodePGN129025` — Position Rapid Update (decoder.go lines 272–292). -/
def decodePGN129025 (data : List Nat) : Option FieldMap :=
  if data.length < 8 then none
  else
    let latRaw := u32le data 0
    let lonRaw := u32le data 4
    some (
      (if latRaw ≠ 0xFFFFFFFF then
        [("latitude", FieldVal.num (((latRaw : ℚ) - 0x80000000) * (1 / 10000000)))]
      else [])
      ++ (if lonRaw ≠ 0xFFFFFFFF then
        [("longitude", FieldVal.num (((lonRaw : ℚ) - 0x80000000) * (1 / 10000000)))]
      else []))

/-- Embeds `decodePGN128267` — Water Depth (decoder.go lines 295–311). -/
def decodePGN128267 (data : List Nat) : Option FieldMap :=
  if data.length < 5 then none
  else
    let sid := u8 data 0
    let depthRaw := u32le data 1
    some (
      [("sid", FieldVal.num (sid : ℚ))]
      ++ (if depthRaw ≠ 0xFFFFFFFF then
        [("depth_m", FieldVal.num ((depthRaw : ℚ) * (1 / 100)))]
      else []))

/-- Embeds `decodePGN128259` — Speed Water Referenced (decoder.go lines 314–339). -/
def decodePGN128259 (data : List Nat) : Option FieldMap :=
  if data.length < 7 then none
  else
    let sid := u8 data 0
    let waterRaw := u16le data 1
    let groundRaw := u16le data 3
    some (
      [("sid", FieldVal.num (sid : ℚ))]
      ++ (if waterRaw ≠ 0xFFFF then
            let ws : ℚ := (waterRaw : ℚ) * (1 / 100)
            [("water_speed_ms", FieldVal.num ws),
             ("water_speed_kts", FieldVal.num (ws * (194384 / 100000)))]
          else [])
      ++ (if groundRaw ≠ 0xFFFF then
            let gs : ℚ := (groundRaw : ℚ) * (1 / 100)
            [("ground_speed_ms", FieldVal.num gs),
             ("ground_speed_kts", FieldVal.num (gs * (194384 / 100000)))]
          else []))

/-- Embeds `decodePGN128275` — Distance Log (decoder.go lines 342–360). -/
def decodePGN128275 (data : List Nat) : Option FieldMap :=
  if data.length < 8 then none
  else
    let logRaw := u32le data 0
    let tripRaw := u32le data 4
    some (
      (if logRaw ≠ 0xFFFFFFFF then
        [("log_distance_m", FieldVal.num ((logRaw : ℚ) * (1852 / 10)))]
      else [])
      ++ (if tripRaw ≠ 0xFFFFFFFF then
        [("trip_distance_m", FieldVal.num ((tripRaw : ℚ) * (1852 / 10)))]
      else []))

/-- Embeds `decodePGN129029` — GNSS Position Data (types.go part 2, lines 203–270). -/
def decodePGN129029 (data : List Nat) : Option FieldMap :=
  if data.length < 43 then none
  else
    let sid := u8 data 0
    let dateDays := u16le data 1
    let timeRaw := u32le data 3
    let latRaw := i64le data 7
    let lonRaw := i64le data 15
    let altRaw := i64le data 23
    let pack1 := u8 data 31
    let gnssType := pack1 &&& 0x0F
    let method := (pack1 >>> 4) &&& 0x0F
    let pack2 := u8 data 32
    let integrity := pack2 &&& 0b11
    let svs := u8 data 33
    let hdopRaw := i16le data 34
    let pdopRaw := i16le data 36
    let geoidRaw := i32le data 38
    let refStations := u8 data 42
    some (
      [("sid", FieldVal.num (sid : ℚ))]
      ++ (if dateDays ≠ 0xFFFF ∧ timeRaw ≠ 0xFFFFFFFF then
        [("fix_time_utc", FieldVal.str (formatDayMs dateDays timeRaw))]
      else [])
      ++ (if latRaw ≠ 0x7FFFFFFFFFFFFFFF then
        [("latitude", FieldVal.num ((latRaw : ℚ) * (1 / 10000000000000000)))]
      else [])
      ++ (if lonRaw ≠ 0x7FFFFFFFFFFFFFFF then
        [("longitude", FieldVal.num ((lonRaw : ℚ) * (1 / 10000000000000000)))]
      else [])
      ++ (if altRaw ≠ 0x7FFFFFFFFFFFFFFF then
        [("altitude_m", FieldVal.num ((altRaw : ℚ) * (1 / 1000000)))]
      else [])
      ++ [("gnss_type", FieldVal.num (gnssType : ℚ)),
          ("method", FieldVal.num (method : ℚ)),
          ("integrity", FieldVal.num (integrity : ℚ)),
          ("satellites", FieldVal.num (svs : ℚ))]
      ++ (if hdopRaw ≠ 0x7FFF then
        [("hdop", FieldVal.num ((hdopRaw : ℚ) * (1 / 100)))]
      else [])
      ++ (if pdopRaw ≠ 0x7FFF then
        [("pdop", FieldVal.num ((pdopRaw : ℚ) * (1 / 100)))]
      else [])
      ++ (if geoidRaw ≠ 0x7FFFFFFF then
        [("geoidal_separation_m", FieldVal.num ((geoidRaw : ℚ) * (1 / 100)))]
      else [])
      ++ [("reference_stations", FieldVal.num (refStations : ℚ))])

/-- Embeds `decodePGN127245` — Rudder (types.go part 2, lines 273–300). -/
def decodePGN127245 (data : List Nat) : Option FieldMap :=
  if data.length < 6 then none
  else
    let inst := u8 data 0
    let directionOrder := u8 data 1
    let angleOrderRaw := i16le data 2
    let positionRaw := i16le data 4
    some (
      [("rudder_instance", FieldVal.num (inst : ℚ)),
       ("direction_order", FieldVal.num (directionOrder : ℚ))]
      ++ (if angleOrderRaw ≠ 0x7FFF then
            let angle : ℚ := (angleOrderRaw : ℚ) * (1 / 10000)
            [("rudder_angle_order_rad", FieldVal.num angle),
             ("rudder_angle_order_deg", FieldVal.num (angle * 180 / goPi))]
          else [])
      ++ (if positionRaw ≠ 0x7FFF then
            let pos : ℚ := (positionRaw : ℚ) * (1 / 10000)
            [("rudder_position_rad", FieldVal.num pos),
             ("rudder_position_deg", FieldVal.num (pos * 180 / goPi))]
          else []))

/-- Embeds `decodePGN127237` — Heading/Track Control (types.go part 2, lines 303–344). -/
def decodePGN127237 (data : List Nat) : Option FieldMap :=
  if data.length < 8 then none
  else
    let b0 := u8 data 0
    let b1 := u8 data 1
    let b2 := u8 data 2
    let cmdRudderAngleRaw := i16le data 3
    let headingToSteerRaw := u16le data 5
    let trackRaw := u16le data 7
    some (
      [("rudder_limit_exceeded", FieldVal.num (((b0 >>> 6) &&& 0b11 : Nat) : ℚ)),
       ("off_heading_exceeded", FieldVal.num (((b0 >>> 4) &&& 0b11 : Nat) : ℚ)),
       ("off_track_exceeded", FieldVal.num (((b0 >>> 2) &&& 0b11 : Nat) : ℚ)),
       ("override", FieldVal.num ((b0 &&& 0b11 : Nat) : ℚ)),
       ("steering_mode", FieldVal.num (((b1 >>> 5) &&& 0b111 : Nat) : ℚ)),
       ("turn_mode", FieldVal.num (((b1 >>> 2) &&& 0b111 : Nat) : ℚ)),
       ("heading_reference", FieldVal.num ((((b1 &&& 0b11) ||| (((b2 >>> 7) &&& 0b1) <<< 2) : Nat)) : ℚ)),
       ("commanded_rudder_direction", FieldVal.num ((b2 &&& 0b111 : Nat) : ℚ))]
      ++ (if cmdRudderAngleRaw ≠ 0x7FFF then
        [("commanded_rudder_angle_rad", FieldVal.num ((cmdRudderAngleRaw : ℚ) * (1 / 10000)))]
      else [])
      ++ (if headingToSteerRaw ≠ 0xFFFF then
        [("heading_to_steer_rad", FieldVal.num ((headingToSteerRaw : ℚ) * (1 / 10000)))]
      else [])
      ++ (if trackRaw ≠ 0xFFFF then
        [("track_rad", FieldVal.num ((trackRaw : ℚ) * (1 / 10000)))]
      else []))

/-- Embeds `decodePGN129284` — Navigation Data (types.go part 2, lines 347–387). -/
def decodePGN129284 (data : List Nat) : Option FieldMap :=
  if data.length < 8 then none
  else
    let sid := u8 data 0
    let distCm := u32le data 1
    let flags := u8 data 5
    some (
      [("sid", FieldVal.num (sid : ℚ))]
      ++ (if distCm ≠ 0xFFFFFFFF then
        [("distance_to_waypoint_m", FieldVal.num ((distCm : ℚ) / 100))]
      else [])
      ++ [("bearing_reference", FieldVal.num (((flags >>> 6) &&& 0b11 : Nat) : ℚ)),
          ("perpendicular_crossed", FieldVal.num (((flags >>> 4) &&& 0b11 : Nat) : ℚ)),
          ("arrival_circle_entered", FieldVal.num (((flags >>> 2) &&& 0b11 : Nat) : ℚ)),
          ("calculation_type", FieldVal.num ((flags &&& 0b11 : Nat) : ℚ))]
      ++ (if 6 + 4 ≤ data.length then
            let etaTimeRaw := u32le data 6
            let etaDateRaw := u16le data 10
            if etaDateRaw ≠ 0xFFFF ∧ etaTimeRaw ≠ 0xFFFFFFFF then
              [("eta_utc", FieldVal.str (formatDayMs etaDateRaw etaTimeRaw))]
            else []
          else []))

/-- Embeds `formatSatField` (types.go part 2, lines 440–442). -/
def formatSatField (field : String) (index : Nat) : String :=
  "sv_" ++ String.mk [Char.ofNat (48 + index)] ++ "_" ++ field

/-- Embeds the satellite loop of `decodePGN129540`: one recursion step per
`i <= satsInView` iteration; the `offset+9 <= len(data)` guard ends it. -/
def satLoop (data : List Nat) (fuel i offset : Nat) : FieldMap :=
  match fuel with
  | 0 => []
  | fuel + 1 =>
    if offset + 9 ≤ data.length then
      let prn := u8 data offset
      let elevRaw := i16le data (offset + 1)
      let azimRaw := u16le data (offset + 3)
      let snrRaw := i16le data (offset + 5)
      let rngRaw := u32le data (offset + 7)
      let status := u8 data (offset + 11)
      ((if prn ≠ 0xFF then [(formatSatField ("prn") i, FieldVal.num (prn : ℚ))] else [])
       ++ (if elevRaw ≠ 0x7FFF then
         [(formatSatField ("elevation_rad") i, FieldVal.num ((elevRaw : ℚ) * (1 / 10000)))]
       else [])
       ++ (if azimRaw ≠ 0xFFFF then
         [(formatSatField ("azimuth_rad") i, FieldVal.num ((azimRaw : ℚ) * (1 / 10000)))]
       else [])
       ++ (if snrRaw ≠ 0x7FFF then
         [(formatSatField ("snr_dbhz") i, FieldVal.num ((snrRaw : ℚ) * (1 / 10)))]
       else [])
       ++ (if rngRaw ≠ 0xFFFFFFFF then
         [(formatSatField ("range_residual_m") i, FieldVal.num ((rngRaw : ℚ) * (1 / 1000)))]
       else [])
       ++ [(formatSatField ("status") i, FieldVal.num (((status >>> 4) &&& 0x0F : Nat) : ℚ))])
      ++ satLoop data fuel (i + 1) (offset + 12)
    else []

/-- Embeds `decodePGN129540` — GNSS Satellites in View (types.go part 2,
lines 390–438). -/
def decodePGN129540 (data : List Nat) : Option FieldMap :=
  if data.length < 3 then none
  else
    let sid := u8 data 0
    let hdr := u8 data 1
    let satsInView := u8 data 2
    some (
      [("sid", FieldVal.num (sid : ℚ)),
       ("range_residual_mode", FieldVal.num (((hdr >>> 6) &&& 0b11 : Nat) : ℚ)),
       ("sats_in_view", FieldVal.num (satsInView : ℚ))]
      ++ satLoop data satsInView 1 3)

/-- Embeds `decodePGN126992` — System Time (types.go part 2, lines 445–473). -/
def decodePGN126992 (data : List Nat) : Option FieldMap :=
  if data.length < 8 then none
  else
    let sid := u8 data 0
    let timeSource := u8 data 1
    let days := u16le data 2
    let ms := u32le data 4
    some (
      [("sid", FieldVal.num (sid : ℚ)),
       ("time_source", FieldVal.num (timeSource : ℚ))]
      ++ (if days ≠ 0xFFFF then
        [("date", FieldVal.str (formatDayMs days 0))]
      else [])
      ++ (if ms ≠ 0xFFFFFFFF then
        [("time_of_day", FieldVal.str (formatDayMs 0 ms))]
      else []))

/-- Embeds `decodePGN127508` — Battery Status (types.go part 2, lines 480–508). -/
def decodePGN127508 (data : List Nat) : Option FieldMap :=
  if data.length < 8 then none
  else
    let inst := u8 data 0
    let voltageRaw := u16le data 1
    let currentRaw := i16le data 3
    let tempRaw := u16le data 5
    let sid := u8 data 7
    some (
      [("battery_instance", FieldVal.num (inst : ℚ)),
       ("sid", FieldVal.num (sid : ℚ))]
      ++ (if voltageRaw ≠ 0xFFFF then
        [("battery_voltage_v", FieldVal.num ((voltageRaw : ℚ) * (1 / 100)))]
      else [])
      ++ (if currentRaw ≠ 0x7FFF then
        [("battery_current_a", FieldVal.num ((currentRaw : ℚ) * (1 / 10)))]
      else [])
      ++ (if tempRaw ≠ 0xFFFF then
        [("battery_temperature_c", FieldVal.num ((tempRaw : ℚ) * (1 / 100) - 27315 / 100))]
      else []))

/-- Embeds `decodePGN127489` — Engine Parameters Dynamic (types.go part 2,
lines 511–544). -/
def decodePGN127489 (data : List Nat) : Option FieldMap :=
  if data.length < 8 then none
  else
    let inst := u8 data 0
    let oilPressureRaw := u16le data 1
    let oilTempRaw := u16le data 3
    let engineTempRaw := u16le data 5
    some (
      [("engine_instance", FieldVal.num (inst : ℚ))]
      ++ (if oilPressureRaw ≠ 0xFFFF then
        [("oil_pressure_pa", FieldVal.num ((oilPressureRaw : ℚ) * 100))]
      else [])
      ++ (if oilTempRaw ≠ 0xFFFF then
        [("oil_temperature_c", FieldVal.num ((oilTempRaw : ℚ) * (1 / 10) - 27315 / 100))]
      else [])
      ++ (if engineTempRaw ≠ 0xFFFF then
        [("engine_temperature_c", FieldVal.num ((engineTempRaw : ℚ) * (1 / 100) - 27315 / 100))]
      else [])
      ++ (if data.length ≥ 9 then
            let altVoltageRaw := u16le data 7
            if altVoltageRaw ≠ 0xFFFF then
              [("alternator_voltage_v", FieldVal.num ((altVoltageRaw : ℚ) * (1 / 100)))]
            else []
          else []))

/-- Embeds `decodePGN130310` — Environmental Parameters (types.go part 2,
lines 547–578). -/
def decodePGN130310 (data : List Nat) : Option FieldMap :=
  if data.length < 12 then none
  else
    let sid := u8 data 0
    let airTempRaw := u16le data 4
    let waterTempRaw := u16le data 6
    let humidityRaw := u16le data 8
    let pressureRaw := u16le data 10
    some (
      [("sid", FieldVal.num (sid : ℚ))]
      ++ (if airTempRaw ≠ 0xFFFF then
        [("air_temperature_c", FieldVal.num ((airTempRaw : ℚ) * (1 / 100) - 27315 / 100))]
      else [])
      ++ (if waterTempRaw ≠ 0xFFFF then
        [("water_temperature_c", FieldVal.num ((waterTempRaw : ℚ) * (1 / 100) - 27315 / 100))]
      else [])
      ++ (if humidityRaw ≠ 0xFFFF then
        [("relative_humidity_pct", FieldVal.num ((humidityRaw : ℚ) * (4 / 1000)))]
      else [])
      ++ (if pressureRaw ≠ 0xFFFF then
        [("atmospheric_pressure_hpa", FieldVal.num ((pressureRaw : ℚ) * (1 / 10)))]
      else []))

/-- Embeds `decodePGN130312` — Temperature (types.go part 2, lines 581–608). -/
def decodePGN130312 (data : List Nat) : Option FieldMap :=
  if data.length < 6 then none
  else
    let sid := u8 data 0
    let inst := u8 data 1
    let source := u8 data 2
    let actualTempRaw := u16le data 3
    some (
      [("sid", FieldVal.num (sid : ℚ)),
       ("temperature_instance", FieldVal.num (inst : ℚ)),
       ("temperature_source", FieldVal.num (source : ℚ))]
      ++ (if actualTempRaw ≠ 0xFFFF then
        [("actual_temperature_c", FieldVal.num ((actualTempRaw : ℚ) * (1 / 100) - 27315 / 100))]
      else [])
      ++ (if data.length ≥ 7 then
            let setTempRaw := u16le data 5
            if setTempRaw ≠ 0xFFFF then
              [("set_temperature_c", FieldVal.num ((setTempRaw : ℚ) * (1 / 100) - 27315 / 100))]
            else []
          else []))

/-- Embeds `decodePGN130313` — Humidity (types.go part 2, lines 611–631). -/
def decodePGN130313 (data : List Nat) : Option FieldMap :=
  if data.length < 6 then none
  else
    let sid := u8 data 0
    let inst := u8 data 1
    let source := u8 data 2
    let actualHumidityRaw := u16le data 3
    some (
      [("sid", FieldVal.num (sid : ℚ)),
       ("humidity_instance", FieldVal.num (inst : ℚ)),
       ("humidity_source", FieldVal.num (source : ℚ))]
      ++ (if actualHumidityRaw ≠ 0xFFFF then
        [("actual_humidity_pct", FieldVal.num ((actualHumidityRaw : ℚ) * (4 / 1000)))]
      else []))

/-! ### Decoder registry and PGN metadata (decoder.go) -/

/-- Embeds the handler table built by `registerDefaultHandlers`
(decoder.go lines 30–52): PGN to decoder function, `none` for unregistered
PGNs. -/
def handlers (pgn : Nat) : Option (List Nat → Option FieldMap) :=
  match pgn with
  | 127257 => some decodePGN127257
  | 127251 => some decodePGN127251
  | 130306 => some decodePGN130306
  | 127250 => some decodePGN127250
  | 129026 => some decodePGN129026
  | 129025 => some decodePGN129025
  | 129029 => some decodePGN129029
  | 128267 => some decodePGN128267
  | 128259 => some decodePGN128259
  | 128275 => some decodePGN128275
  | 127245 => some decodePGN127245
  | 127237 => some decodePGN127237
  | 129284 => some decodePGN129284
  | 129540 => some decodePGN129540
  | 126992 => some decodePGN126992
  | 127508 => some decodePGN127508
  | 127489 => some decodePGN127489
  | 130310 => some decodePGN130310
  | 130312 => some decodePGN130312
  | 130313 => some decodePGN130313
  | _ => none

/-- The PGNs carrying a registered handler, in registration order
(decoder.go lines 30–52). -/
def registeredPGNs : List Nat :=
  [127257, 127251, 130306, 127250, 129026, 129025, 129029, 128267, 128259,
   128275, 127245, 127237, 129284, 129540, 126992, 127508, 127489, 130310,
   130312, 130313]

/-- Embeds `(*Decoder).Decode` (decoder.go lines 23–28).  In the source the
error result is `nil` on every path — for an unregistered PGN and for every
installed handler alike — so only the field-map component is represented;
`none` stands for the Go `nil` map. -/
def decode (pgn : Nat) (data : List Nat) : Option FieldMap :=
  match handlers pgn with
  | some h => h data
  | none => none

/-- Embeds `GetMeasurementType` over `MeasurementMap` (types.go part 1,
lines 364–503). -/
def GetMeasurementType (pgn : Nat) : String :=
  match pgn with
  | 129025 => "position"
  | 129026 => "navigation"
  | 129029 => "position"
  | 127250 => "heading"
  | 127251 => "navigation"
  | 128259 => "navigation"
  | 128267 => "navigation"
  | 128275 => "log"
  | 129284 => "navigation"
  | 129285 => "navigation"
  | 129540 => "gnss"
  | 130306 => "wind"
  | 130310 => "environment"
  | 130311 => "environment"
  | 130312 => "environment"
  | 130313 => "environment"
  | 130314 => "environment"
  | 127488 => "engine"
  | 127489 => "engine"
  | 127493 => "transmission"
  | 127497 => "engine"
  | 127498 => "engine"
  | 127500 => "dc_power"
  | 127501 => "dc_power"
  | 127502 => "dc_power"
  | 127503 => "ac_power"
  | 127504 => "ac_power"
  | 127505 => "dc_power"
  | 127506 => "dc_power"
  | 127507 => "dc_power"
  | 127508 => "dc_power"
  | 127509 => "dc_power"
  | 127257 => "attitude"
  | 127252 => "attitude"
  | 129038 => "ais"
  | 129039 => "ais"
  | 129040 => "ais"
  | 129793 => "ais"
  | 129794 => "ais"
  | 129798 => "ais"
  | 129802 => "ais"
  | 129809 => "ais"
  | 129810 => "ais"
  | 126992 => "system"
  | 126993 => "system"
  | 126996 => "system"
  | 126998 => "system"
  | 127245 => "autopilot"
  | 127237 => "autopilot"
  | 127258 => "autopilot"
  | 126208 => "system"
  | 130576 => "craft_status"
  | 130577 => "craft_status"
  | 126720 => "proprietary"
  | 130822 => "proprietary"
  | _ => "nmea_general"

/-- Embeds `GetPGNName` over `PGNNames` (types.go part 1, lines 439–511);
only the names touched by the claims are spelled out, every other registered
name collapses to its literal string through the same total match. -/
def GetPGNName (pgn : Nat) : String :=
  match pgn with
  | 129025 => "Position Rapid Update"
  | 129026 => "COG & SOG Rapid Update"
  | 129029 => "GNSS Position Data"
  | 127250 => "Vessel Heading"
  | 127251 => "Rate of Turn"
  | 127257 => "Attitude"
  | 127252 => "Heave"
  | 128259 => "Speed Water Referenced"
  | 128267 => "Water Depth"
  | 128275 => "Distance Log"
  | 129284 => "Navigation Data"
  | 129285 => "Route/WP Information"
  | 129540 => "GNSS Satellites in View"
  | 130306 => "Wind Data"
  | 130310 => "Environmental Parameters"
  | 130311 => "Environmental Parameters"
  | 130312 => "Temperature"
  | 130313 => "Humidity"
  | 130314 => "Actual Pressure"
  | 127488 => "Engine Parameters Rapid"
  | 127489 => "Engine Parameters Dynamic"
  | 127493 => "Transmission Parameters"
  | 127497 => "Trip Parameters Engine"
  | 127498 => "Engine Parameters Static"
  | 127500 => "Load Controller State"
  | 127501 => "Binary Switch Bank Status"
  | 127502 => "Switch Bank Control"
  | 127503 => "AC Input Status"
  | 127504 => "AC Output Status"
  | 127505 => "Fluid Level"
  | 127506 => "DC Detailed Status"
  | 127507 => "Charger Status"
  | 127508 => "Battery Status"
  | 127509 => "Inverter Status"
  | 129038 => "AIS Class A Position"
  | 129039 => "AIS Class B Position"
  | 129040 => "AIS Class B Extended Position"
  | 129793 => "AIS UTC Date/Time"
  | 129794 => "AIS Class A Static Data"
  | 129798 => "AIS SAR Aircraft Position"
  | 129802 => "AIS Safety Broadcast"
  | 129809 => "AIS Class B Static A"
  | 129810 => "AIS Class B Static B"
  | 126992 => "System Time"
  | 126993 => "Heartbeat"
  | 126996 => "Product Information"
  | 126998 => "Configuration Information"
  | 127245 => "Rudder"
  | 127237 => "Heading/Track Control"
  | 127258 => "Magnetic Variation"
  | 126208 => "Group Function"
  | 130576 => "Small Craft Status"
  | 130577 => "Direction Data"
  | 126720 => "Proprietary"
  | 130822 => "Proprietary Fast"
  | _ => "Unknown"

/-! ### Statistics (types.go lines 36–96) -/

/-- Embeds `nmea.Statistics`; count maps are functions with default 0, and
the two wall-clock fields (`StartTime`, `LastUpdate`) are outside this
model. -/
structure Statistics where
  messagesProcessed : Nat
  decodeSuccesses : Nat
  decodeFailures : Nat
  pgnCounts : Nat → Nat
  measurementCounts : String → Nat

/-- Embeds `NewStatistics` (types.go lines 47–54). -/
def newStatistics : Statistics :=
  { messagesProcessed := 0
    decodeSuccesses := 0
    decodeFailures := 0
    pgnCounts := fun _ => 0
    measurementCounts := fun _ => 0 }

/-- Embeds `(*Statistics).RecordMessage` (types.go lines 56–70). -/
def recordMessage (s : Statistics) (pgn : Nat) (measurement : String)
    (success : Bool) : Statistics :=
  { messagesProcessed := s.messagesProcessed + 1
    decodeSuccesses := if success then s.decodeSuccesses + 1 else s.decodeSuccesses
    decodeFailures := if success then s.decodeFailures else s.decodeFailures + 1
    pgnCounts := fun p => if p = pgn then s.pgnCounts p + 1 else s.pgnCounts p
    measurementCounts := fun m =>
      if m = measurement then s.measurementCounts m + 1 else s.measurementCounts m }

/-- Embeds the `success_rate` entry of `(*Statistics).GetSnapshot`
(types.go lines 72–96): `DecodeSuccesses / MessagesProcessed * 100` when any
message was processed, else 0. -/
def successRate (s : Statistics) : ℚ :=
  if s.messagesProcessed > 0 then
    (s.decodeSuccesses : ℚ) / (s.messagesProcessed : ℚ) * 100
  else 0

/-- Replays a sequence of `RecordMessage` calls on fresh statistics. -/
def recordAll (calls : List (Nat × String × Bool)) : Statistics :=
  calls.foldl (fun s c => recordMessage s c.1 c.2.1 c.2.2) newStatistics

/-! ### Decode worker and storage worker (collector.go lines 270–343) -/

/-- Embeds `nmea.RawFrame` restricted to the components the decode worker
reads. -/
structure RawFrame where
  timestamp : Int
  pgn : Nat
  source : Nat
  data : List Nat

/-- Embeds one `decodeWorker` iteration fused with the `storageWorker`
hand-off (collector.go lines 270–343): decode the frame, build the
`DecodedMessage`, record `success := err == nil && fields != nil &&
len(fields) > 0` (the error is `nil` on every decoder path), push the message
into the ring buffer.  Channel hand-off and the drop-when-full policy are
outside this model; the claim concerns the per-message bookkeeping. -/
def decodeWorkerStep (stats : Statistics) (rb : RingBuffer) (frame : RawFrame) :
    Statistics × RingBuffer × DecodedMessage :=
  let fields := decode frame.pgn frame.data
  let decoded : DecodedMessage :=
    { timestamp := frame.timestamp
      pgn := frame.pgn
      pgnName := GetPGNName frame.pgn
      source := frame.source
      measurement := GetMeasurementType frame.pgn
      fields := fields }
  let success := match fields with
    | some fs => fs.length > 0
    | none => false
  let stats2 := recordMessage stats frame.pgn decoded.measurement success
  (stats2, rb.push decoded, decoded)

/-! ### Fusion mapper (boomsense_mapper.go) -/

/-- Embeds `integration.BoomSenseData` (boomsense_mapper.go lines 19–31). -/
structure BoomSenseData where
  boomAngle : ℚ
  rollRate : ℚ
  pitchRate : ℚ
  yawRate : ℚ
  mainsheetLoad : ℚ
  vangLoad : ℚ
  eventType : String
  timestamp : Int
  windSpeed : ℚ
  windAngle : ℚ
  boatSpeed : ℚ
  deriving DecidableEq, Repr

/-- Embeds `(*BoomSenseMapper).GetBoatSpeed` (boomsense_mapper.go lines
116–133): the latest 129026 message's `sog_kts` when that field is present,
otherwise the latest 128259 message's `water_speed_kts`, otherwise 0.  A
present `sog_kts` is returned unconditionally — the source has no zero
check here. -/
def getBoatSpeed (rb : RingBuffer) : ℚ :=
  match (rb.getLatestByPGN 129026).bind (fun m => m.numField ("sog_kts")) with
  | some sog => sog
  | none =>
    match (rb.getLatestByPGN 128259).bind (fun m => m.numField ("water_speed_kts")) with
    | some ws => ws
    | none => 0

/-- The PGN 127257 block of `GetCurrentData` (boomsense_mapper.go lines
39–52): heel angle as boom angle, pitch, yaw, and the message timestamp. -/
def currentDataAttitude (rb : RingBuffer) (data : BoomSenseData) : BoomSenseData :=
  match rb.getLatestByPGN 127257 with
  | none => data
  | some msg =>
    let a : BoomSenseData := match msg.numField ("heel_angle") with
      | some heelAngle => { data with boomAngle := heelAngle }
      | none => data
    let b : BoomSenseData := match msg.numField ("pitch_deg") with
      | some pitch => { a with pitchRate := pitch }
      | none => a
    let c : BoomSenseData := match msg.numField ("yaw_deg") with
      | some yaw => { b with yawRate := yaw }
      | none => b
    { c with timestamp := msg.timestamp }

/-- The PGN 127251 block of `GetCurrentData` (boomsense_mapper.go lines
54–59): rate of turn as roll rate. -/
def currentDataRateOfTurn (rb : RingBuffer) (data : BoomSenseData) : BoomSenseData :=
  match rb.getLatestByPGN 127251 with
  | none => data
  | some msg =>
    match msg.numField ("rate_of_turn_deg_s") with
    | some rot => { data with rollRate := rot }
    | none => data

/-- The PGN 130306 block of `GetCurrentData` (boomsense_mapper.go lines
61–72): wind speed and angle, timestamp when still unset. -/
def currentDataWind (rb : RingBuffer) (data : BoomSenseData) : BoomSenseData :=
  match rb.getLatestByPGN 130306 with
  | none => data
  | some msg =>
    let a : BoomSenseData := match msg.numField ("wind_speed_kts") with
      | some ws => { data with windSpeed := ws }
      | none => data
    let b : BoomSenseData := match msg.numField ("wind_angle_deg") with
      | some wa => { a with windAngle := wa }
      | none => a
    if b.timestamp = 0 then { b with timestamp := msg.timestamp } else b

/-- The PGN 129026 block of `GetCurrentData` (boomsense_mapper.go lines
74–79): boat speed from `sog_kts`. -/
def currentDataSOG (rb : RingBuffer) (data : BoomSenseData) : BoomSenseData :=
  match rb.getLatestByPGN 129026 with
  | none => data
  | some msg =>
    match msg.numField ("sog_kts") with
    | some sog => { data with boatSpeed := sog }
    | none => data

/-- The PGN 128259 block of `GetCurrentData` (boomsense_mapper.go lines
81–88): when the boat speed is still zero, fall back to `water_speed_kts`. -/
def currentDataWaterFallback (rb : RingBuffer) (data : BoomSenseData) : BoomSenseData :=
  let fallback : BoomSenseData := match rb.getLatestByPGN 128259 with
    | none => data
    | some msg =>
      match msg.numField ("water_speed_kts") with
      | some ws => { data with boatSpeed := ws }
      | none => data
  if data.boatSpeed = 0 then fallback else data

/-- Embeds `(*BoomSenseMapper).GetCurrentData` (boomsense_mapper.go lines
33–91): the zero-valued start, then the five source blocks in order. -/
def getCurrentData (rb : RingBuffer) : BoomSenseData :=
  let data : BoomSenseData :=
    { boomAngle := 0, rollRate := 0, pitchRate := 0, yawRate := 0
      mainsheetLoad := 0, vangLoad := 0, eventType := "normal", timestamp := 0
      windSpeed := 0, windAngle := 0, boatSpeed := 0 }
  currentDataWaterFallback rb (currentDataSOG rb
    (currentDataWind rb (currentDataRateOfTurn rb (currentDataAttitude rb data))))

/-- The `sog_kts` field of the latest 129026 message, if any: the quantity
both boat-speed readers consult first. -/
def sogOf (rb : RingBuffer) : Option ℚ :=
  (rb.getLatestByPGN 129026).bind (fun m => m.numField ("sog_kts"))

/-- The `water_speed_kts` field of the latest 128259 message, if any: the
fallback quantity. -/
def waterOf (rb : RingBuffer) : Option ℚ :=
  (rb.getLatestByPGN 128259).bind (fun m => m.numField ("water_speed_kts"))

/-! ### Event detector (boomsense_sensor/detector.go)

Sample times and all measured quantities are exact rationals; the
`float64(t.UnixNano())/1e9` conversion and the `time.Unix` round trip in
`publish` are the identity in this model.  The NaN/Inf filters of `spanIn`
never fire over `ℚ` (no such rational values exist; the caller in
`ProcessIMU` already excludes them before `OnSample`), so the valid series
equal the sample series.  A Go panic (out-of-range index in
`calculateOvershoot`) is an outer `none`. -/

/-- Embeds `boomsense_sensor.Config` (boomsense_sensor/types.go lines
134–160), restricted to the fields the detector reads. -/
structure Config where
  maxBufferSize : Nat
  crashGyDPS : ℚ
  normalGyMin : ℚ
  boomStepCrash : ℚ
  boomStepNormal : ℚ
  crashDT : ℚ
  normalDT : ℚ
  rollHit : ℚ
  rollDT : ℚ
  tackGyMin : ℚ
  tackGyMax : ℚ
  tackBoomStep : ℚ
  tackDTMax : ℚ
  tackMinRollDelta : ℚ
  refractoryPeriod : ℚ

/-- Embeds `DefaultConfig` (boomsense_sensor/types.go lines 162–185),
detector fields. -/
def defaultConfig : Config :=
  { maxBufferSize := 600
    crashGyDPS := 120
    normalGyMin := 20
    boomStepCrash := 12 / 10
    boomStepNormal := 1
    crashDT := 6 / 10
    normalDT := 25 / 10
    rollHit := 8
    rollDT := 4 / 10
    tackGyMin := 15
    tackGyMax := 110
    tackBoomStep := 1
    tackDTMax := 3
    tackMinRollDelta := 12
    refractoryPeriod := 3 }

/-- Embeds `eventSample` (boomsense_sensor/detector.go lines 19–24). -/
structure EventSample where
  t : ℚ
  gyro : ℚ
  boomNorm : ℚ
  roll : ℚ
  deriving DecidableEq, Repr

instance : Inhabited EventSample := ⟨{ t := 0, gyro := 0, boomNorm := 0, roll := 0 }⟩

/-- Embeds `boomsense_sensor.Event` (boomsense_sensor/types.go lines 58–70),
detector-set fields; unset fields keep the Go zero value. -/
structure Event where
  type : String
  timestamp : ℚ
  direction : String := ""
  gyroPeak : ℚ := 0
  boomDelta : ℚ := 0
  rollDelta : ℚ := 0
  duration : ℚ := 0
  overshoot : ℚ := 0
  score : ℚ := 0
  deriving DecidableEq, Repr

/-- The six results of `spanIn`, in source order. -/
structure SpanStats where
  dt : ℚ
  gyPeak : ℚ
  boomDelta : ℚ
  rollDrop : ℚ
  bnSeries : List ℚ
  rlSeries : List ℚ
  deriving DecidableEq, Repr

/-- Embeds the roll-drop double loop of `spanIn` (detector.go lines
233–242): accumulator scan over all pairs `i < j` of `roll_i − roll_j`,
starting from 0. -/
def maxDropAux : List ℚ → ℚ → ℚ
  | [], acc => acc
  | x :: xs, acc => maxDropAux xs (xs.foldl (fun a y => max a (x - y)) acc)

/-- Embeds `spanIn` (detector.go lines 179–245). -/
def spanIn (buffer : List EventSample) (tNow horizon : ℚ) : SpanStats :=
  let t0 := max 0 (tNow - horizon)
  let sub := buffer.filter (fun s => t0 ≤ s.t)
  if sub.isEmpty then
    { dt := 0, gyPeak := 0, boomDelta := 0, rollDrop := 0, bnSeries := [], rlSeries := [] }
  else
    let dt := (sub.getLastD default).t - (sub.headD default).t
    let gyPeak := sub.foldl (fun acc s => max acc |s.gyro|) 0
    let bnValid := sub.map (fun s => s.boomNorm)
    let boomDelta :=
      if bnValid.length ≥ 2 then
        let first := bnValid.headD 0
        let minBn := bnValid.foldl min first
        let maxBn := bnValid.foldl max first
        maxBn - minBn
      else 0
    let rlValid := sub.map (fun s => s.roll)
    let rollDrop := if rlValid.length ≥ 2 then maxDropAux rlValid 0 else 0
    { dt := dt, gyPeak := gyPeak, boomDelta := boomDelta, rollDrop := rollDrop
      bnSeries := bnValid, rlSeries := rlValid }

/-- Embeds `tackDirection` (detector.go lines 248–259). -/
def tackDirection (bnSeries : List ℚ) : String :=
  if bnSeries.length < 2 then ""
  else if bnSeries.headD 0 > 0 ∧ bnSeries.getLastD 0 < 0 then "stb_to_port"
  else if bnSeries.headD 0 < 0 ∧ bnSeries.getLastD 0 > 0 then "port_to_stb"
  else ""

/-- Sum of `l[lo..hi)` read by index, as the overshoot loops do. -/
def sumIdx (l : List ℚ) (lo hi : Nat) : ℚ :=
  ((List.range (hi - lo)).map (fun k => l.getD (lo + k) 0)).sum

/-- Maximum of `|l[k] − target|` over `k ∈ [lo, hi)`, accumulator starting
at 0, as the overshoot deviation loop does. -/
def maxDevIdx (l : List ℚ) (lo hi : Nat) (target : ℚ) : ℚ :=
  (List.range (hi - lo)).foldl (fun a k => max a |l.getD (lo + k) 0 - target|) 0

/-- Embeds `calculateOvershoot` (detector.go lines 262–295).  The Go
`int(math.Max(2, float64(n)/4))` equals `max 2 (n / 4)` with natural
division (taking the floor commutes with this max), likewise for
`int(math.Max(5, float64(n)/3))`.  When `tailThird > n` the Go loop starts
at a negative index and panics on `bnSeries[-1]`; that outcome is `none`. -/
def calculateOvershoot (bnSeries : List ℚ) : Option ℚ :=
  if bnSeries.length < 4 then some 0
  else
    let n := bnSeries.length
    let headN := max 2 (n / 4)
    let headMean := sumIdx bnSeries 0 headN / (headN : ℚ)
    let _ := headMean
    let tailN := max 2 (n / 4)
    let tail := sumIdx bnSeries (n - tailN) n / (tailN : ℚ)
    let target := tail
    let tailThird := max 5 (n / 3)
    if tailThird ≤ n then
      some (max 0 (maxDevIdx bnSeries (n - tailThird) n target - 5 / 100))
    else none

/-- Embeds the Go `math.Round`: round half away from zero. -/
def goRound (q : ℚ) : ℚ :=
  if 0 ≤ q then ((Rat.floor (q + 1 / 2) : ℤ) : ℚ)
  else -((Rat.floor (-q + 1 / 2) : ℤ) : ℚ)

/-- Embeds `tackQualityScore` (detector.go lines 298–313). -/
def tackQualityScore (dt gyPeak rollDrop overshoot : ℚ) : ℚ :=
  let tComp := max 0 (40 * ((16 / 10) / max (6 / 10) dt))
  let gyComp := max 0 (30 * (1 - |gyPeak - 55| / 55))
  let rlComp := max 0 (20 * (min rollDrop 25 / 25))
  let osComp := max 0 (10 * (1 - min (overshoot / (25 / 100)) 1))
  let score := tComp + gyComp + rlComp + osComp
  min 100 (goRound (score * 10) / 10)

/-- Embeds `checkCrashGybe` (detector.go lines 99–113). -/
def checkCrashGybe (cfg : Config) (buffer : List EventSample) (tNow : ℚ) : Option Event :=
  let st := spanIn buffer tNow cfg.crashDT
  if st.gyPeak ≥ cfg.crashGyDPS ∧ st.boomDelta ≥ cfg.boomStepCrash then
    some { type := "gybe_crash", timestamp := tNow, gyroPeak := st.gyPeak,
           boomDelta := st.boomDelta, rollDelta := st.rollDrop, duration := st.dt }
  else none

/-- Embeds `checkNormalGybe` (detector.go lines 116–132). -/
def checkNormalGybe (cfg : Config) (buffer : List EventSample) (tNow : ℚ) : Option Event :=
  let st := spanIn buffer tNow cfg.normalDT
  if st.gyPeak ≥ cfg.normalGyMin ∧ st.gyPeak < cfg.crashGyDPS ∧
      st.boomDelta ≥ cfg.boomStepNormal then
    some { type := "gybe_normal", timestamp := tNow, gyroPeak := st.gyPeak,
           boomDelta := st.boomDelta, rollDelta := st.rollDrop, duration := st.dt }
  else none

/-- Embeds `checkTack` (detector.go lines 135–160).  Outer `none` is the
panic of `calculateOvershoot` propagating out of the check; `some none`
means the rule did not fire. -/
def checkTack (cfg : Config) (buffer : List EventSample) (tNow : ℚ) :
    Option (Option Event) :=
  let st := spanIn buffer tNow cfg.tackDTMax
  if st.gyPeak ≥ cfg.tackGyMin ∧ st.gyPeak ≤ cfg.tackGyMax ∧
      st.boomDelta ≥ cfg.tackBoomStep ∧ st.rollDrop ≥ cfg.tackMinRollDelta then
    let direction := tackDirection st.bnSeries
    match calculateOvershoot st.bnSeries with
    | none => none
    | some overshoot =>
      let score := tackQualityScore st.dt st.gyPeak st.rollDrop overshoot
      some (some { type := "tack", timestamp := tNow, direction := direction,
                   gyroPeak := st.gyPeak, boomDelta := st.boomDelta,
                   rollDelta := st.rollDrop, duration := st.dt,
                   overshoot := overshoot, score := score })
  else some none

/-- Embeds `checkBoomHit` (detector.go lines 163–176). -/
def checkBoomHit (cfg : Config) (buffer : List EventSample) (tNow : ℚ) : Option Event :=
  let st := spanIn buffer tNow cfg.rollDT
  if st.gyPeak ≥ cfg.crashGyDPS + 20 ∧ st.rollDrop ≥ cfg.rollHit then
    some { type := "boom_hit", timestamp := tNow, gyroPeak := st.gyPeak,
           rollDelta := st.rollDrop, duration := st.dt }
  else none

/-- Detector state: the sliding sample buffer and the last-emitted-event
time (`NewEventDetector` initializes the latter to `-1e9`). -/
structure DetState where
  buffer : List EventSample
  lastEventTime : ℚ

/-- Embeds `NewEventDetector` (detector.go lines 26–33). -/
def newEventDetector : DetState :=
  { buffer := [], lastEventTime := -1000000000 }

/-- Embeds `publish` (detector.go lines 316–328): records the event's
timestamp as the last-event time (listener dispatch carries no state). -/
def publish (st : DetState) (evt : Event) : DetState :=
  { st with lastEventTime := evt.timestamp }

/-- Embeds `maybeEmit` (detector.go lines 67–96): the refractory guard, then
the four checks in order, first match emitted.  `none` is the tack check
panicking. -/
def maybeEmit (cfg : Config) (st : DetState) (tNow : ℚ) :
    Option (DetState × Option Event) :=
  if tNow - st.lastEventTime < cfg.refractoryPeriod then some (st, none)
  else
    match checkCrashGybe cfg st.buffer tNow with
    | some evt => some (publish st evt, some evt)
    | none =>
      match checkNormalGybe cfg st.buffer tNow with
      | some evt => some (publish st evt, some evt)
      | none =>
        match checkTack cfg st.buffer tNow with
        | none => none
        | some (some evt) => some (publish st evt, some evt)
        | some none =>
          match checkBoomHit cfg st.buffer tNow with
          | some evt => some (publish st evt, some evt)
          | none => some (st, none)

/-- Embeds `OnSample` (detector.go lines 43–64): append the sample, trim the
buffer to `maxBufferSize`, then run `maybeEmit` at the sample's time. -/
def onSample (cfg : Config) (st : DetState) (s : EventSample) :
    Option (DetState × Option Event) :=
  let buffer := st.buffer ++ [s]
  let buffer := if buffer.length > cfg.maxBufferSize then buffer.drop 1 else buffer
  maybeEmit cfg { st with buffer := buffer } s.t

/-- Feeds samples to the detector in order, collecting emitted events; a
panic stops the run (second component `true`). -/
def runAux (cfg : Config) (st : DetState) : List EventSample → List Event × Bool
  | [] => ([], false)
  | s :: rest =>
    match onSample cfg st s with
    | none => ([], true)
    | some (st2, oe) =>
      let r := runAux cfg st2 rest
      (oe.toList ++ r.1, r.2)

/-- A whole detector run from the fresh state. -/
def runDetector (cfg : Config) (samples : List EventSample) : List Event × Bool :=
  runAux cfg newEventDetector samples

/-! ### Bayesian QA (boomsense_sensor/bayesian.go)

The logistic `sigmoid` calls `math.Exp`, which has no exact rational
embedding; the model therefore takes the sigmoid as a function parameter,
and the variance-positivity theorem assumes only its range `[0, 1]` — the
one property of the real sigmoid the update algebra uses. -/

/-- Embeds `BayesianQA` state (bayesian.go lines 11–16). -/
structure BayesianQA where
  d : Nat
  mu : List ℚ
  vr : List ℚ

/-- Embeds `NewBayesianQA` (bayesian.go lines 19–31). -/
def NewBayesianQA (d : Nat) (sigma0 : ℚ) : BayesianQA :=
  { d := d
    mu := List.replicate d 0
    vr := List.replicate d (sigma0 * sigma0) }

/-- The forward pass `z = Σ mu_i·x_i` over the first `d` components
(bayesian.go lines 72–76). -/
def dotD (d : Nat) (mu x : List ℚ) : ℚ :=
  ((List.range d).map (fun i => mu.getD i 0 * x.getD i 0)).sum

/-- One iteration of the `Update` loop body (bayesian.go lines 71–91):
forward pass, then the component-wise diagonal Newton step
`h = p(1−p)x_i² + 1/v_i`, `mu_i += g/h`, `v_i = 1/h`. -/
def updateIter (sig : ℚ → ℚ) (bq : BayesianQA) (x : List ℚ) (y : ℚ) : BayesianQA :=
  let z := dotD bq.d bq.mu x
  let p := sig z
  { bq with
    mu := (List.range bq.d).map (fun i =>
      let g := (y - p) * x.getD i 0
      let h := p * (1 - p) * x.getD i 0 * x.getD i 0 + 1 / bq.vr.getD i 0
      bq.mu.getD i 0 + g / h)
    vr := (List.range bq.d).map (fun i =>
      let h := p * (1 - p) * x.getD i 0 * x.getD i 0 + 1 / bq.vr.getD i 0
      1 / h) }

/-- The `iters` loop of `Update`, applied sequentially. -/
def updateLoop (sig : ℚ → ℚ) (bq : BayesianQA) (x : List ℚ) (y : ℚ) :
    Nat → BayesianQA
  | 0 => bq
  | iters + 1 => updateLoop sig (updateIter sig bq x y) x y iters

/-- Embeds `(*BayesianQA).Update` (bayesian.go lines 63–92): a feature
vector of the wrong length is ignored. -/
def BayesianQA.update (sig : ℚ → ℚ) (bq : BayesianQA) (x : List ℚ) (y : ℚ)
    (iters : Nat) : BayesianQA :=
  if x.length ≠ bq.d then bq
  else updateLoop sig bq x y iters

/-- Replays a sequence of `Update` calls. -/
def applyUpdates (sig : ℚ → ℚ) (bq : BayesianQA)
    (calls : List (List ℚ × ℚ × Nat)) : BayesianQA :=
  calls.foldl (fun b c => BayesianQA.update sig b c.1 c.2.1 c.2.2) bq

/-! ### C3: sentinel payloads of minimum declared length

Each payload has the decoder's minimum declared length and every field slot
holds its width's N2K sentinel pattern: `0xFF...` for unsigned fields,
`0xFF... 0x7F` (little-endian maximum positive) for signed fields; filler
and status bytes are `0xFF`. -/

/-- Sentinel payload for 127257 (7 bytes: u8 sid, three i16). -/
def sentinelPayload127257 : List Nat := [0xFF, 0xFF, 0x7F, 0xFF, 0x7F, 0xFF, 0x7F]

/-- Sentinel payload for 127251 (minimum declared length 3: u8 sid, i16). -/
def sentinelPayload127251 : List Nat := [0xFF, 0xFF, 0x7F]

/-- Sentinel payload for 130306 (6 bytes, all fields unsigned). -/
def sentinelPayload130306 : List Nat := List.replicate 6 0xFF

/-- Sentinel payload for 127250 (8 bytes: sid, u16, i16, i16, ref). -/
def sentinelPayload127250 : List Nat := [0xFF, 0xFF, 0xFF, 0xFF, 0x7F, 0xFF, 0x7F, 0xFF]

/-- Sentinel payload for 129026 (8 bytes, unsigned fields). -/
def sentinelPayload129026 : List Nat := List.replicate 8 0xFF

/-- Sentinel payload for 129025 (8 bytes, unsigned fields). -/
def sentinelPayload129025 : List Nat := List.replicate 8 0xFF

/-- Sentinel payload for 129029 (43 bytes: sid, u16 date, u32 time, three
i64, two packed bytes, sat count, two i16, i32, ref count). -/
def sentinelPayload129029 : List Nat :=
  [0xFF] ++ [0xFF, 0xFF] ++ [0xFF, 0xFF, 0xFF, 0xFF]
  ++ [0xFF, 0xFF, 0xFF, 0xFF, 0xFF, 0xFF, 0xFF, 0x7F]
  ++ [0xFF, 0xFF, 0xFF, 0xFF, 0xFF, 0xFF, 0xFF, 0x7F]
  ++ [0xFF, 0xFF, 0xFF, 0xFF, 0xFF, 0xFF, 0xFF, 0x7F]
  ++ [0xFF, 0xFF, 0xFF] ++ [0xFF, 0x7F] ++ [0xFF, 0x7F]
  ++ [0xFF, 0xFF, 0xFF, 0x7F] ++ [0xFF]

/-- Sentinel payload for 128267 (5 bytes, unsigned fields). -/
def sentinelPayload128267 : List Nat := List.replicate 5 0xFF

/-- Sentinel payload for 128259 (7 bytes, unsigned fields). -/
def sentinelPayload128259 : List Nat := List.replicate 7 0xFF

/-- Sentinel payload for 128275 (8 bytes, unsigned fields). -/
def sentinelPayload128275 : List Nat := List.replicate 8 0xFF

/-- Sentinel payload for 127245 (6 bytes: two u8, two i16). -/
def sentinelPayload127245 : List Nat := [0xFF, 0xFF, 0xFF, 0x7F, 0xFF, 0x7F]

/-- Sentinel payload for 127237 (8 bytes: three packed bytes, i16, u16,
u16 whose second byte lies past the minimum length). -/
def sentinelPayload127237 : List Nat := [0xFF, 0xFF, 0xFF, 0xFF, 0x7F, 0xFF, 0xFF, 0xFF]

/-- Sentinel payload for 129284 (8 bytes: sid, u32, flags, ETA absent). -/
def sentinelPayload129284 : List Nat := List.replicate 8 0xFF

/-- Sentinel payload for 129540 (3 bytes: sid, header, count). -/
def sentinelPayload129540 : List Nat := List.replicate 3 0xFF

/-- Sentinel payload for 126992 (8 bytes, unsigned fields). -/
def sentinelPayload126992 : List Nat := List.replicate 8 0xFF

/-- Sentinel payload for 127508 (8 bytes: u8, u16, i16, u16, u8). -/
def sentinelPayload127508 : List Nat := [0xFF, 0xFF, 0xFF, 0xFF, 0x7F, 0xFF, 0xFF, 0xFF]

/-- Sentinel payload for 127489 (8 bytes, unsigned fields). -/
def sentinelPayload127489 : List Nat := List.replicate 8 0xFF

/-- Sentinel payload for 130310 (12 bytes, unsigned fields). -/
def sentinelPayload130310 : List Nat := List.replicate 12 0xFF

/-- Sentinel payload for 130312 (6 bytes, unsigned fields). -/
def sentinelPayload130312 : List Nat := List.replicate 6 0xFF

/-- Sentinel payload for 130313 (6 bytes, unsigned fields). -/
def sentinelPayload130313 : List Nat := List.replicate 6 0xFF

/-- Latest 129026 message of the C5 counterexample: `sog_kts` present and
zero. -/
def c5msg26 : DecodedMessage :=
  ⟨10, 129026, "COG & SOG Rapid Update", 0, "navigation",
   some [("sog_kts", FieldVal.num 0)]⟩

/-- Latest 128259 message of the C5 counterexample: `water_speed_kts`
present at 5 knots. -/
def c5msg59 : DecodedMessage :=
  ⟨11, 128259, "Speed Water Referenced", 0, "navigation",
   some [("water_speed_kts", FieldVal.num 5)]⟩

/-- Ring buffer holding both counterexample messages. -/
def c5Buffer : RingBuffer := pushAll (newRingBuffer 8) [c5msg26, c5msg59]

/-- Follows the specification's words for the tack-overshoot claim (C7),
not the source: tail is the mean of the last quarter (`n / 4` elements) of
the series, the deviation maximum ranges over the last third (`n / 3`
elements), and the overshoot is `max 0 (m − 0.05)`. -/
def overshootSpec (bnSeries : List ℚ) : ℚ :=
  let n := bnSeries.length
  let tail := (bnSeries.drop (n - n / 4)).sum / ((n / 4 : Nat) : ℚ)
  let m := (bnSeries.drop (n - n / 3)).foldl (fun a x => max a |x - tail|) 0
  max 0 (m - 5 / 100)

/-- Boom-position series of the C7 counterexample run (12 valid samples). -/
def c7Boom : List ℚ :=
  [3/5, 3/5, 3/5, 3/5, 3/5, 3/5, 3/5, -1, -3/5, -3/5, -3/5, -3/5]

/-- The C7 counterexample samples: gyro peak 17 deg/s (inside the tack band,
below the normal-gybe minimum), boom swinging from 0.6 to −0.6 with an
excursion to −1, roll dropping 12 degrees only at the last sample. -/
def c7Samples : List EventSample :=
  [⟨0, 17, 3/5, 0⟩, ⟨1/4, 17, 3/5, 0⟩, ⟨2/4, 17, 3/5, 0⟩, ⟨3/4, 17, 3/5, 0⟩,
   ⟨1, 17, 3/5, 0⟩, ⟨5/4, 17, 3/5, 0⟩, ⟨6/4, 17, 3/5, 0⟩, ⟨7/4, 17, -1, 0⟩,
   ⟨2, 17, -3/5, 0⟩, ⟨9/4, 17, -3/5, 0⟩, ⟨10/4, 17, -3/5, 0⟩,
   ⟨11/4, 17, -3/5, -12⟩]

/-- A four-sample window on which the tack rule fires: its valid boom
series has length 4, the case where `calculateOvershoot` indexes out of
range. -/
def c7Samples4 : List EventSample :=
  [⟨0, 17, 3/5, 0⟩, ⟨1/2, 17, 3/5, 0⟩, ⟨1, 17, -3/5, 0⟩, ⟨3/2, 17, -3/5, -12⟩]

/-- The length-4 boom series of `c7Samples4`. -/
def c7Boom4 : List ℚ := [3/5, 3/5, -3/5, -3/5]

/-- S4 message A: PGN 1, pushed first. -/
def s4MsgA : DecodedMessage := ⟨1, 1, "", 0, "", none⟩

/-- S4 message B: PGN 2, pushed second. -/
def s4MsgB : DecodedMessage := ⟨2, 2, "", 0, "", none⟩

/-- S4 message C: PGN 1, pushed third. -/
def s4MsgC : DecodedMessage := ⟨3, 1, "", 0, "", none⟩

/-- S4 message D: PGN 3, pushed fourth. -/
def s4MsgD : DecodedMessage := ⟨4, 3, "", 0, "", none⟩

/-! ## Theorems -/

/-- C4: for all uint8 parts, `PGNFromParts dp pf ps` equals
`((dp & 1) << 16) | ((pf & 0xFF) << 8)` when `pf < 240` — hence is
independent of `ps` there — and equals that base OR'd with `ps & 0xFF`
when `pf ≥ 240`; in particular `(0, 0xF0, 0x1A)` yields 61466 and
`(1, 0xEF, 0x12)` yields 126720. -/
theorem c4_pgn_from_parts (dp pf ps : Nat) (hdp : dp < 256) (hpf : pf < 256)
    (hps : ps < 256) :
    (pf < 240 →
      PGNFromParts dp pf ps = (((dp &&& 1) <<< 16) ||| ((pf &&& 0xFF) <<< 8)) ∧
      PGNFromParts dp pf ps = PGNFromParts dp pf 0) ∧
    (240 ≤ pf →
      PGNFromParts dp pf ps =
        ((((dp &&& 1) <<< 16) ||| ((pf &&& 0xFF) <<< 8)) ||| (ps &&& 0xFF))) ∧
    PGNFromParts 0 0xF0 0x1A = 61466 ∧
    PGNFromParts 1 0xEF 0x12 = 126720 := by
  refine ⟨fun h => ⟨?_, ?_⟩, fun h => ?_, by decide, by decide⟩
  · simp [PGNFromParts, h]
  · simp [PGNFromParts, h]
  · have h' : ¬ pf < 240 := by omega
    simp [PGNFromParts, h']

/-- Witness for C4 at the spec's concrete inputs, plus `ps`-independence at
`pf = 0xEF`. -/
theorem c4_pgn_from_parts_witness :
    PGNFromParts 0 0xF0 0x1A = 61466 ∧
    PGNFromParts 1 0xEF 0x12 = 126720 ∧
    PGNFromParts 0 0xEF 0x55 = PGNFromParts 0 0xEF 0 :=
  ⟨(c4_pgn_from_parts 0 0xF0 0x1A (by decide) (by decide) (by decide)).2.2.1,
   (c4_pgn_from_parts 1 0xEF 0x12 (by decide) (by decide) (by decide)).2.2.2,
   ((c4_pgn_from_parts 0 0xEF 0x55 (by decide) (by decide) (by decide)).1
     (by decide)).2⟩

/-- C2: for a payload of length `L`, every byte reader of width `w` returns
its sentinel (all-ones unsigned, maximum positive signed) at every offset
from `L − w + 1` through `L`, and cannot hit an out-of-range slice index
there (the panic predicates are false). -/
theorem c2_byte_reader_boundary (data : List Nat) (off : Int) :
    ((data.length : Int) ≤ off ∧ off ≤ (data.length : Int) →
      u8 data off = 0xFF ∧ i8 data off = 0x7F ∧ ¬ u8Panics data off) ∧
    ((data.length : Int) - 1 ≤ off ∧ off ≤ (data.length : Int) →
      u16le data off = 0xFFFF ∧ i16le data off = 0x7FFF ∧ ¬ r16Panics data off) ∧
    ((data.length : Int) - 3 ≤ off ∧ off ≤ (data.length : Int) →
      u32le data off = 0xFFFFFFFF ∧ i32le data off = 0x7FFFFFFF ∧
      ¬ r32Panics data off) ∧
    ((data.length : Int) - 7 ≤ off ∧ off ≤ (data.length : Int) →
      i64le data off = 0x7FFFFFFFFFFFFFFF ∧ ¬ r64Panics data off) := by
  refine ⟨fun h => ?_, fun h => ?_, fun h => ?_, fun h => ?_⟩
  · have hc : off ≥ (data.length : Int) := h.1
    exact ⟨by simp [u8, hc], by simp [i8, hc], fun hp => hp.1 hc⟩
  · have hc : off + 1 ≥ (data.length : Int) := by omega
    exact ⟨by simp [u16le, hc], by simp [i16le, hc], fun hp => hp.1 hc⟩
  · have hc : off + 3 ≥ (data.length : Int) := by omega
    exact ⟨by simp [u32le, hc], by simp [i32le, hc], fun hp => hp.1 hc⟩
  · have hc : off + 7 ≥ (data.length : Int) := by omega
    exact ⟨by simp [i64le, hc], fun hp => hp.1 hc⟩

/-- Witness for C2 on the one-byte payload `[5]`, one in-range boundary
offset per width. -/
theorem c2_byte_reader_boundary_witness :
    u8 [5] 1 = 0xFF ∧ i8 [5] 1 = 0x7F ∧
    u16le [5] 0 = 0xFFFF ∧ i16le [5] 0 = 0x7FFF ∧
    u32le [5] (-2) = 0xFFFFFFFF ∧ i32le [5] (-2) = 0x7FFFFFFF ∧
    i64le [5] (-6) = 0x7FFFFFFFFFFFFFFF :=
  ⟨((c2_byte_reader_boundary [5] 1).1 ⟨by decide, by decide⟩).1,
   ((c2_byte_reader_boundary [5] 1).1 ⟨by decide, by decide⟩).2.1,
   ((c2_byte_reader_boundary [5] 0).2.1 ⟨by decide, by decide⟩).1,
   ((c2_byte_reader_boundary [5] 0).2.1 ⟨by decide, by decide⟩).2.1,
   ((c2_byte_reader_boundary [5] (-2)).2.2.1 ⟨by decide, by decide⟩).1,
   ((c2_byte_reader_boundary [5] (-2)).2.2.1 ⟨by decide, by decide⟩).2.1,
   ((c2_byte_reader_boundary [5] (-6)).2.2.2 ⟨by decide, by decide⟩).1⟩

/-- C3: every registered PGN decoder, fed a payload of its minimum declared
length whose every field slot carries that field's sentinel, emits no
physical fields: the key lists below hold only index/SID/status/count-type
bytes (`sid`, instances, sources, references, packed flags, counts) and, for
127257 and 130306 in particular, no yaw/pitch/roll/heel and no wind speed or
wind angle keys. -/
theorem c3_sentinel_decode :
    (decode 127257 sentinelPayload127257).map (fun l => l.map Prod.fst)
      = some ["sid"] ∧
    (decode 127251 sentinelPayload127251).map (fun l => l.map Prod.fst)
      = some ["sid"] ∧
    (decode 130306 sentinelPayload130306).map (fun l => l.map Prod.fst)
      = some ["sid", "wind_reference"] ∧
    (decode 127250 sentinelPayload127250).map (fun l => l.map Prod.fst)
      = some ["sid", "heading_reference"] ∧
    (decode 129026 sentinelPayload129026).map (fun l => l.map Prod.fst)
      = some ["sid"] ∧
    (decode 129025 sentinelPayload129025).map (fun l => l.map Prod.fst)
      = some [] ∧
    (decode 129029 sentinelPayload129029).map (fun l => l.map Prod.fst)
      = some ["sid", "gnss_type", "method", "integrity", "satellites",
              "reference_stations"] ∧
    (decode 128267 sentinelPayload128267).map (fun l => l.map Prod.fst)
      = some ["sid"] ∧
    (decode 128259 sentinelPayload128259).map (fun l => l.map Prod.fst)
      = some ["sid"] ∧
    (decode 128275 sentinelPayload128275).map (fun l => l.map Prod.fst)
      = some [] ∧
    (decode 127245 sentinelPayload127245).map (fun l => l.map Prod.fst)
      = some ["rudder_instance", "direction_order"] ∧
    (decode 127237 sentinelPayload127237).map (fun l => l.map Prod.fst)
      = some ["rudder_limit_exceeded", "off_heading_exceeded",
              "off_track_exceeded", "override", "steering_mode", "turn_mode",
              "heading_reference", "commanded_rudder_direction"] ∧
    (decode 129284 sentinelPayload129284).map (fun l => l.map Prod.fst)
      = some ["sid", "bearing_reference", "perpendicular_crossed",
              "arrival_circle_entered", "calculation_type"] ∧
    (decode 129540 sentinelPayload129540).map (fun l => l.map Prod.fst)
      = some ["sid", "range_residual_mode", "sats_in_view"] ∧
    (decode 126992 sentinelPayload126992).map (fun l => l.map Prod.fst)
      = some ["sid", "time_source"] ∧
    (decode 127508 sentinelPayload127508).map (fun l => l.map Prod.fst)
      = some ["battery_instance", "sid"] ∧
    (decode 127489 sentinelPayload127489).map (fun l => l.map Prod.fst)
      = some ["engine_instance"] ∧
    (decode 130310 sentinelPayload130310).map (fun l => l.map Prod.fst)
      = some ["sid"] ∧
    (decode 130312 sentinelPayload130312).map (fun l => l.map Prod.fst)
      = some ["sid", "temperature_instance", "temperature_source"] ∧
    (decode 130313 sentinelPayload130313).map (fun l => l.map Prod.fst)
      = some ["sid", "humidity_instance", "humidity_source"] := by
  decide

/-- The two counters incremented by `RecordMessage` always account for every
processed message, from any starting state. -/
theorem recordAll_counts (calls : List (Nat × String × Bool)) :
    ∀ s : Statistics,
      (calls.foldl (fun s c => recordMessage s c.1 c.2.1 c.2.2) s).messagesProcessed
        = s.messagesProcessed + calls.length ∧
      (calls.foldl (fun s c => recordMessage s c.1 c.2.1 c.2.2) s).decodeSuccesses
          + (calls.foldl (fun s c => recordMessage s c.1 c.2.1 c.2.2) s).decodeFailures
        = s.decodeSuccesses + s.decodeFailures + calls.length := by
  induction calls with
  | nil => intro s; simp
  | cons c rest ih =>
    intro s
    have h := ih (recordMessage s c.1 c.2.1 c.2.2)
    simp only [List.foldl_cons] at *
    refine ⟨?_, ?_⟩
    · rw [h.1]; simp [recordMessage]; omega
    · rw [h.2]; cases hc : c.2.2 <;> simp [recordMessage, hc] <;> omega

/-- C10: after any sequence of `RecordMessage` calls on fresh statistics,
`MessagesProcessed` equals the number of calls and equals
`DecodeSuccesses + DecodeFailures`, and the snapshot's success rate is
`DecodeSuccesses / (DecodeSuccesses + DecodeFailures) × 100` (0 when no
message was processed). -/
theorem c10_statistics_invariant (calls : List (Nat × String × Bool)) :
    (recordAll calls).messagesProcessed = calls.length ∧
    (recordAll calls).messagesProcessed
      = (recordAll calls).decodeSuccesses + (recordAll calls).decodeFailures ∧
    successRate (recordAll calls)
      = (if (recordAll calls).messagesProcessed = 0 then 0
         else ((recordAll calls).decodeSuccesses : ℚ)
           / (((recordAll calls).decodeSuccesses
               + (recordAll calls).decodeFailures : Nat) : ℚ) * 100) := by
  have h := recordAll_counts calls newStatistics
  have h1 : (recordAll calls).messagesProcessed = calls.length := by
    have := h.1; simpa [recordAll, newStatistics] using this
  have h2 : (recordAll calls).decodeSuccesses + (recordAll calls).decodeFailures
      = calls.length := by
    have := h.2; simpa [recordAll, newStatistics] using this
  refine ⟨h1, by omega, ?_⟩
  by_cases hz : (recordAll calls).messagesProcessed = 0
  · simp [successRate, hz]
  · have hpos : (recordAll calls).messagesProcessed > 0 := Nat.pos_of_ne_zero hz
    have hmp : (recordAll calls).messagesProcessed
        = (recordAll calls).decodeSuccesses + (recordAll calls).decodeFailures := by
      omega
    have hsf : ¬ (recordAll calls).decodeSuccesses
        + (recordAll calls).decodeFailures = 0 := by omega
    have hgt : (recordAll calls).decodeSuccesses
        + (recordAll calls).decodeFailures > 0 := by omega
    simp only [successRate, hmp, if_pos hgt, if_neg hsf]

/-- C9: a frame whose PGN has no registered handler decodes to no error and
no fields (`nil` map); the worker still builds and stores the message, and
statistics record it as a decode failure, not a success. -/
theorem c9_decode_miss (stats : Statistics) (rb : RingBuffer) (frame : RawFrame)
    (h : handlers frame.pgn = none) :
    decode frame.pgn frame.data = none ∧
    (decodeWorkerStep stats rb frame).2.2.fields = none ∧
    (decodeWorkerStep stats rb frame).2.2.pgn = frame.pgn ∧
    (decodeWorkerStep stats rb frame).2.1
      = rb.push (decodeWorkerStep stats rb frame).2.2 ∧
    (decodeWorkerStep stats rb frame).1.messagesProcessed
      = stats.messagesProcessed + 1 ∧
    (decodeWorkerStep stats rb frame).1.decodeFailures
      = stats.decodeFailures + 1 ∧
    (decodeWorkerStep stats rb frame).1.decodeSuccesses
      = stats.decodeSuccesses := by
  have hd : decode frame.pgn frame.data = none := by
    simp [decode, h]
  refine ⟨hd, ?_, ?_, ?_, ?_, ?_, ?_⟩ <;>
    simp [decodeWorkerStep, hd, recordMessage]

/-- Witness for C9 at PGN 60928 (ISO Address Claim, unregistered). -/
theorem c9_decode_miss_witness :
    decode 60928 [1, 2, 3] = none ∧
    (decodeWorkerStep newStatistics (newRingBuffer 2)
        { timestamp := 0, pgn := 60928, source := 5, data := [1, 2, 3] }).1.decodeFailures
      = 1 ∧
    (decodeWorkerStep newStatistics (newRingBuffer 2)
        { timestamp := 0, pgn := 60928, source := 5, data := [1, 2, 3] }).1.decodeSuccesses
      = 0 := by
  have h := c9_decode_miss newStatistics (newRingBuffer 2)
    { timestamp := 0, pgn := 60928, source := 5, data := [1, 2, 3] } rfl
  exact ⟨h.1, by rw [h.2.2.2.2.2.1]; rfl, by rw [h.2.2.2.2.2.2]; rfl⟩

/-- One `Update` inner iteration keeps the dimension, keeps the variance
vector at length `d`, and keeps every variance component strictly positive,
for any sigmoid with range inside `[0, 1]`. -/
theorem updateIter_vr (sig : ℚ → ℚ) (hsig : ∀ z, 0 ≤ sig z ∧ sig z ≤ 1)
    (bq : BayesianQA) (x : List ℚ) (y : ℚ)
    (hlen : bq.vr.length = bq.d) (hpos : ∀ v ∈ bq.vr, 0 < v) :
    (updateIter sig bq x y).d = bq.d ∧
    (updateIter sig bq x y).vr.length = bq.d ∧
    ∀ v ∈ (updateIter sig bq x y).vr, 0 < v := by
  refine ⟨rfl, by simp [updateIter], ?_⟩
  intro v hv
  simp only [updateIter, List.mem_map, List.mem_range] at hv
  obtain ⟨i, hi, hveq⟩ := hv
  have hp := hsig (dotD bq.d bq.mu x)
  have hvi : 0 < bq.vr.getD i 0 := by
    have hil : i < bq.vr.length := by omega
    rw [List.getD_eq_getElem bq.vr 0 hil]
    exact hpos _ (List.getElem_mem hil)
  have hterm : 0 ≤ sig (dotD bq.d bq.mu x) * (1 - sig (dotD bq.d bq.mu x))
      * x.getD i 0 * x.getD i 0 := by
    have h1 : 0 ≤ sig (dotD bq.d bq.mu x) * (1 - sig (dotD bq.d bq.mu x)) :=
      mul_nonneg hp.1 (by linarith [hp.2])
    have h2 : 0 ≤ x.getD i 0 * x.getD i 0 := mul_self_nonneg _
    nlinarith
  have hinv : 0 < 1 / bq.vr.getD i 0 := by positivity
  have hh : 0 < sig (dotD bq.d bq.mu x) * (1 - sig (dotD bq.d bq.mu x))
      * x.getD i 0 * x.getD i 0 + 1 / bq.vr.getD i 0 := by linarith
  rw [← hveq]
  exact one_div_pos.mpr hh

/-- The `iters` loop of `Update` preserves the variance invariant. -/
theorem updateLoop_vr (sig : ℚ → ℚ) (hsig : ∀ z, 0 ≤ sig z ∧ sig z ≤ 1) :
    ∀ (iters : Nat) (bq : BayesianQA) (x : List ℚ) (y : ℚ),
      bq.vr.length = bq.d → (∀ v ∈ bq.vr, 0 < v) →
      (updateLoop sig bq x y iters).d = bq.d ∧
      (updateLoop sig bq x y iters).vr.length = bq.d ∧
      ∀ v ∈ (updateLoop sig bq x y iters).vr, 0 < v := by
  intro iters
  induction iters with
  | zero => intro bq x y hlen hpos; exact ⟨rfl, hlen, hpos⟩
  | succ n ih =>
    intro bq x y hlen hpos
    obtain ⟨hd, hl, hp⟩ := updateIter_vr sig hsig bq x y hlen hpos
    have := ih (updateIter sig bq x y) x y (by omega) hp
    exact ⟨by rw [updateLoop]; omega,
           by rw [updateLoop]; omega,
           by rw [updateLoop]; exact this.2.2⟩

/-- `Update` preserves the variance invariant (wrong-length vectors are
no-ops). -/
theorem update_vr (sig : ℚ → ℚ) (hsig : ∀ z, 0 ≤ sig z ∧ sig z ≤ 1)
    (bq : BayesianQA) (x : List ℚ) (y : ℚ) (iters : Nat)
    (hlen : bq.vr.length = bq.d) (hpos : ∀ v ∈ bq.vr, 0 < v) :
    (BayesianQA.update sig bq x y iters).d = bq.d ∧
    (BayesianQA.update sig bq x y iters).vr.length = bq.d ∧
    ∀ v ∈ (BayesianQA.update sig bq x y iters).vr, 0 < v := by
  unfold BayesianQA.update
  split
  · exact ⟨rfl, hlen, hpos⟩
  · exact updateLoop_vr sig hsig iters bq x y hlen hpos

/-- C8: every component of the posterior variance is strictly positive
after construction (initialized to `σ₀²`, with a nonzero `σ₀`) and remains
strictly positive after every sequence of `Update` calls: each `v_i` is
replaced by `1/h` with `h = p(1−p)x_i² + 1/v_i`, strictly positive whenever
`v_i` was.  The sigmoid enters only through its range `[0, 1]`. -/
theorem c8_variance_positive (sig : ℚ → ℚ) (hsig : ∀ z, 0 ≤ sig z ∧ sig z ≤ 1)
    (d : Nat) (sigma0 : ℚ) (hs : sigma0 ≠ 0)
    (calls : List (List ℚ × ℚ × Nat)) :
    (∀ v ∈ (NewBayesianQA d sigma0).vr, 0 < v) ∧
    ∀ v ∈ (applyUpdates sig (NewBayesianQA d sigma0) calls).vr, 0 < v := by
  have hbase : ∀ v ∈ (NewBayesianQA d sigma0).vr, 0 < v := by
    intro v hv
    have := List.eq_of_mem_replicate hv
    rw [this]
    exact mul_self_pos.mpr hs
  refine ⟨hbase, ?_⟩
  have hkey : ∀ (cs : List (List ℚ × ℚ × Nat)) (bq : BayesianQA),
      bq.vr.length = bq.d → (∀ v ∈ bq.vr, 0 < v) →
      (applyUpdates sig bq cs).vr.length = (applyUpdates sig bq cs).d ∧
      ∀ v ∈ (applyUpdates sig bq cs).vr, 0 < v := by
    intro cs
    induction cs with
    | nil => intro bq hlen hpos; exact ⟨hlen, hpos⟩
    | cons c rest ih =>
      intro bq hlen hpos
      obtain ⟨hd, hl, hp⟩ := update_vr sig hsig bq c.1 c.2.1 c.2.2 hlen hpos
      have := ih (BayesianQA.update sig bq c.1 c.2.1 c.2.2) (by omega) hp
      simpa [applyUpdates] using this
  exact (hkey calls (NewBayesianQA d sigma0) (by simp [NewBayesianQA]) hbase).2

/-- Witness for C8: `σ₀ = 10`, dimension 2, one `Update` with the constant
sigmoid `1/2`, inspecting the first variance component. -/
theorem c8_variance_positive_witness :
    0 < ((applyUpdates (fun _ => 0) (NewBayesianQA 2 10)
        [([1, 1], 1, 1)]).vr.getD 0 0) := by
  have h := c8_variance_positive (fun _ => 0)
    (fun z => by norm_num) 2 10 (by norm_num) [([1, 1], 1, 1)]
  apply h.2
  have hv : (applyUpdates (fun _ => (0 : ℚ)) (NewBayesianQA 2 10)
      [([1, 1], 1, 1)]).vr = [100, 100] := by
    norm_num [applyUpdates, BayesianQA.update, updateLoop, updateIter,
      NewBayesianQA, dotD, List.range_succ]
  rw [hv]
  norm_num

/-- The attitude block never touches the boat speed. -/
theorem currentDataAttitude_boatSpeed (rb : RingBuffer) (d : BoomSenseData) :
    (currentDataAttitude rb d).boatSpeed = d.boatSpeed := by
  unfold currentDataAttitude
  rcases rb.getLatestByPGN 127257 with _ | msg
  · rfl
  · rcases h1 : msg.numField ("heel_angle") with _ | v1 <;>
    rcases h2 : msg.numField ("pitch_deg") with _ | v2 <;>
    rcases h3 : msg.numField ("yaw_deg") with _ | v3 <;>
    simp [h1, h2, h3]

/-- The rate-of-turn block never touches the boat speed. -/
theorem currentDataRateOfTurn_boatSpeed (rb : RingBuffer) (d : BoomSenseData) :
    (currentDataRateOfTurn rb d).boatSpeed = d.boatSpeed := by
  unfold currentDataRateOfTurn
  rcases rb.getLatestByPGN 127251 with _ | msg
  · rfl
  · rcases h1 : msg.numField ("rate_of_turn_deg_s") with _ | v1 <;> simp [h1]

/-- The wind block never touches the boat speed. -/
theorem currentDataWind_boatSpeed (rb : RingBuffer) (d : BoomSenseData) :
    (currentDataWind rb d).boatSpeed = d.boatSpeed := by
  unfold currentDataWind
  rcases rb.getLatestByPGN 130306 with _ | msg
  · rfl
  · rcases h1 : msg.numField ("wind_speed_kts") with _ | v1 <;>
    rcases h2 : msg.numField ("wind_angle_deg") with _ | v2 <;>
    simp [h1, h2] <;> split <;> simp

/-- The SOG block sets the boat speed to `sog_kts` exactly when the field is
present, keeping the previous value otherwise. -/
theorem currentDataSOG_boatSpeed (rb : RingBuffer) (d : BoomSenseData) :
    (currentDataSOG rb d).boatSpeed = (sogOf rb).getD d.boatSpeed := by
  unfold currentDataSOG sogOf
  rcases rb.getLatestByPGN 129026 with _ | msg
  · rfl
  · rcases h : msg.numField ("sog_kts") with _ | s <;> simp [h]

/-- The water-speed block replaces a zero boat speed by `water_speed_kts`
when that field is present. -/
theorem currentDataWaterFallback_boatSpeed (rb : RingBuffer) (d : BoomSenseData) :
    (currentDataWaterFallback rb d).boatSpeed =
      (if d.boatSpeed = 0 then (waterOf rb).getD d.boatSpeed else d.boatSpeed) := by
  unfold currentDataWaterFallback waterOf
  rcases h : rb.getLatestByPGN 128259 with _ | msg
  · simp [h]
  · rcases h2 : msg.numField ("water_speed_kts") with _ | w <;>
      simp [h, h2, apply_ite BoomSenseData.boatSpeed]

/-- C5 amended: the mapper's boat speed comes from the latest 129026
message's `sog_kts`, with the latest 128259 message's `water_speed_kts` as
fallback — but the two readers gate the fallback differently.
`GetBoatSpeed` falls back only when `sog_kts` is absent and returns a
present zero unchanged; the `BoatSpeed` field of `GetCurrentData` falls back
whenever the sog-derived speed is absent or zero. -/
theorem c5_boat_speed_amended (rb : RingBuffer) :
    (∀ s, sogOf rb = some s → getBoatSpeed rb = s) ∧
    (sogOf rb = none → getBoatSpeed rb = (waterOf rb).getD 0) ∧
    (getCurrentData rb).boatSpeed =
      (if (sogOf rb).getD 0 = 0 then (waterOf rb).getD 0 else (sogOf rb).getD 0) := by
  refine ⟨?_, ?_, ?_⟩
  · intro s hs
    unfold getBoatSpeed
    rw [show (rb.getLatestByPGN 129026).bind (fun m => m.numField ("sog_kts"))
        = sogOf rb from rfl, hs]
  · intro hs
    unfold getBoatSpeed
    rw [show (rb.getLatestByPGN 129026).bind (fun m => m.numField ("sog_kts"))
        = sogOf rb from rfl, hs]
    rw [show (rb.getLatestByPGN 128259).bind (fun m => m.numField ("water_speed_kts"))
        = waterOf rb from rfl]
    rcases waterOf rb with _ | w <;> rfl
  · unfold getCurrentData
    rw [currentDataWaterFallback_boatSpeed, currentDataSOG_boatSpeed,
      currentDataWind_boatSpeed, currentDataRateOfTurn_boatSpeed,
      currentDataAttitude_boatSpeed]
    by_cases hz : (sogOf rb).getD (0 : ℚ) = 0 <;> simp [hz]

/-- Witness for C5 amended on the concrete buffer below. -/
theorem c5_boat_speed_amended_witness :
    getBoatSpeed c5Buffer = 0 ∧
    (getCurrentData c5Buffer).boatSpeed = (waterOf c5Buffer).getD 0 := by
  have h := c5_boat_speed_amended c5Buffer
  refine ⟨h.1 0 (by decide), ?_⟩
  rw [h.2.2]
  decide

/-- C5 counterexample: with `sog_kts` present and zero and
`water_speed_kts` present at 5, `GetBoatSpeed` returns 0 — it does not fall
back on a zero speed as the claim states — while `GetCurrentData` does fall
back and reports 5. -/
theorem c5_boat_speed_counterexample :
    sogOf c5Buffer = some 0 ∧ waterOf c5Buffer = some 5 ∧
    getBoatSpeed c5Buffer = 0 ∧ (getCurrentData c5Buffer).boatSpeed = 5 ∧
    (0 : ℚ) ≠ 5 := by
  decide

/-- Every event `checkCrashGybe` produces is stamped with the current
sample time. -/
theorem checkCrashGybe_timestamp (cfg : Config) (buf : List EventSample)
    (tNow : ℚ) (evt : Event) (h : checkCrashGybe cfg buf tNow = some evt) :
    evt.timestamp = tNow := by
  simp only [checkCrashGybe] at h
  split at h
  · rw [← Option.some.inj h]
  · exact Option.noConfusion h

/-- Every event `checkNormalGybe` produces is stamped with the current
sample time. -/
theorem checkNormalGybe_timestamp (cfg : Config) (buf : List EventSample)
    (tNow : ℚ) (evt : Event) (h : checkNormalGybe cfg buf tNow = some evt) :
    evt.timestamp = tNow := by
  simp only [checkNormalGybe] at h
  split at h
  · rw [← Option.some.inj h]
  · exact Option.noConfusion h

/-- Every event `checkBoomHit` produces is stamped with the current sample
time. -/
theorem checkBoomHit_timestamp (cfg : Config) (buf : List EventSample)
    (tNow : ℚ) (evt : Event) (h : checkBoomHit cfg buf tNow = some evt) :
    evt.timestamp = tNow := by
  simp only [checkBoomHit] at h
  split at h
  · rw [← Option.some.inj h]
  · exact Option.noConfusion h

/-- Every event `checkTack` produces is stamped with the current sample
time. -/
theorem checkTack_timestamp (cfg : Config) (buf : List EventSample)
    (tNow : ℚ) (evt : Event) (h : checkTack cfg buf tNow = some (some evt)) :
    evt.timestamp = tNow := by
  simp only [checkTack] at h
  split at h
  · split at h
    · exact Option.noConfusion h
    · rw [← Option.some.inj (Option.some.inj h)]
  · exact Option.noConfusion (Option.some.inj h)

/-- When `maybeEmit` emits nothing, the last-event time is unchanged. -/
theorem maybeEmit_none_last (cfg : Config) (st : DetState) (tNow : ℚ)
    (st2 : DetState) (h : maybeEmit cfg st tNow = some (st2, none)) :
    st2.lastEventTime = st.lastEventTime := by
  unfold maybeEmit at h
  repeat' split at h
  all_goals simp_all [publish]

/-- When `maybeEmit` emits an event, the event carries the current sample
time, the state records it, and the refractory guard had passed. -/
theorem maybeEmit_emit (cfg : Config) (st : DetState) (tNow : ℚ)
    (st2 : DetState) (e : Event) (h : maybeEmit cfg st tNow = some (st2, some e)) :
    e.timestamp = tNow ∧ st2.lastEventTime = tNow ∧
    cfg.refractoryPeriod ≤ tNow - st.lastEventTime := by
  unfold maybeEmit at h
  split at h
  · exact absurd h (by simp)
  next href =>
    have hr : cfg.refractoryPeriod ≤ tNow - st.lastEventTime := not_lt.mp href
    split at h
    next evt heq =>
      have ht := checkCrashGybe_timestamp cfg st.buffer tNow evt heq
      simp only [Option.some.injEq, Prod.mk.injEq, publish] at h
      obtain ⟨h1, h2⟩ := h
      refine ⟨h2 ▸ ht, ?_, hr⟩
      rw [← h1]
      exact h2 ▸ ht
    next =>
      split at h
      next evt heq =>
        have ht := checkNormalGybe_timestamp cfg st.buffer tNow evt heq
        simp only [Option.some.injEq, Prod.mk.injEq, publish] at h
        obtain ⟨h1, h2⟩ := h
        refine ⟨h2 ▸ ht, ?_, hr⟩
        rw [← h1]
        exact h2 ▸ ht
      next =>
        split at h
        next => exact Option.noConfusion h
        next evt heq =>
          have ht := checkTack_timestamp cfg st.buffer tNow evt heq
          simp only [Option.some.injEq, Prod.mk.injEq, publish] at h
          obtain ⟨h1, h2⟩ := h
          refine ⟨h2 ▸ ht, ?_, hr⟩
          rw [← h1]
          exact h2 ▸ ht
        next =>
          split at h
          next evt heq =>
            have ht := checkBoomHit_timestamp cfg st.buffer tNow evt heq
            simp only [Option.some.injEq, Prod.mk.injEq, publish] at h
            obtain ⟨h1, h2⟩ := h
            refine ⟨h2 ▸ ht, ?_, hr⟩
            rw [← h1]
            exact h2 ▸ ht
          next => exact absurd h (by simp)

/-- `OnSample` specializations of the two `maybeEmit` lemmas: the buffer
update never touches the last-event time. -/
theorem onSample_none_last (cfg : Config) (st : DetState) (s : EventSample)
    (st2 : DetState) (h : onSample cfg st s = some (st2, none)) :
    st2.lastEventTime = st.lastEventTime := by
  unfold onSample at h
  have h2 := maybeEmit_none_last cfg _ s.t st2 h
  exact h2

/-- When `OnSample` emits, the event carries the sample time and the
refractory gap from the previous last-event time held. -/
theorem onSample_emit (cfg : Config) (st : DetState) (s : EventSample)
    (st2 : DetState) (e : Event) (h : onSample cfg st s = some (st2, some e)) :
    e.timestamp = s.t ∧ st2.lastEventTime = s.t ∧
    cfg.refractoryPeriod ≤ s.t - st.lastEventTime := by
  unfold onSample at h
  have h2 := maybeEmit_emit cfg _ s.t st2 e h
  exact h2

/-- The timestamps of the events a run emits form a chain whose links are at
least the refractory period, anchored at the starting last-event time. -/
theorem runAux_chain (cfg : Config) :
    ∀ (samples : List EventSample) (st : DetState),
      List.Chain (fun a b => cfg.refractoryPeriod ≤ b - a) st.lastEventTime
        (((runAux cfg st samples).1).map Event.timestamp) := by
  intro samples
  induction samples with
  | nil => intro st; simp [runAux]
  | cons s rest ih =>
    intro st
    rcases h : onSample cfg st s with _ | ⟨st2, oe⟩
    · simp [runAux, h]
    · rcases oe with _ | e
      · have hlast := onSample_none_last cfg st s st2 h
        have := ih st2
        rw [hlast] at this
        simpa [runAux, h] using this
      · obtain ⟨ht, hlast, hgap⟩ := onSample_emit cfg st s st2 e h
        have htail := ih st2
        rw [hlast] at htail
        simp only [runAux, h, Option.toList_some, List.singleton_append,
          List.map_cons]
        exact List.Chain.cons (ht ▸ hgap) (ht ▸ htail)

/-- In a chain with links at least `R ≥ 0`, every later element is at least
`R` past every earlier one. -/
theorem chain_ge (R : ℚ) (hR : 0 ≤ R) :
    ∀ (l : List ℚ) (a : ℚ),
      List.Chain (fun x y => R ≤ y - x) a l → ∀ y ∈ l, R ≤ y - a := by
  intro l
  induction l with
  | nil => intro a _ y hy; cases hy
  | cons b rest ih =>
    intro a hch y hy
    rcases List.chain_cons.mp hch with ⟨hab, hbl⟩
    rcases List.mem_cons.mp hy with rfl | hyrest
    · exact hab
    · have := ih b hbl y hyrest
      linarith

/-- A chain with links at least `R ≥ 0` is pairwise separated by `R`. -/
theorem chain_pairwise (R : ℚ) (hR : 0 ≤ R) :
    ∀ (l : List ℚ) (a : ℚ),
      List.Chain (fun x y => R ≤ y - x) a l →
      l.Pairwise (fun x y => R ≤ y - x) := by
  intro l
  induction l with
  | nil => intro a _; exact List.Pairwise.nil
  | cons b rest ih =>
    intro a hch
    rcases List.chain_cons.mp hch with ⟨_, hbl⟩
    exact List.Pairwise.cons (chain_ge R hR rest b hbl) (ih b hbl)

/-- A relation holding of every pair holds pairwise. -/
theorem pairwise_of_total {α : Type} (P : α → α → Prop)
    (hP : ∀ x y, P x y) : ∀ l : List α, l.Pairwise P := by
  intro l
  induction l with
  | nil => exact List.Pairwise.nil
  | cons x rest ih => exact List.Pairwise.cons (fun y _ => hP x y) ih

/-- C6: over any sample sequence fed to the detector, no two emitted events
have timestamps closer than the configured refractory period: while
`t_now − last_event < refractory` every check is suppressed and nothing is
published, so consecutive emissions are at least the refractory period
apart. -/
theorem c6_refractory (cfg : Config) (samples : List EventSample) :
    ((runDetector cfg samples).1).Pairwise
      (fun e₁ e₂ => ¬ |e₂.timestamp - e₁.timestamp| < cfg.refractoryPeriod) := by
  by_cases hR : 0 ≤ cfg.refractoryPeriod
  · have hchain := runAux_chain cfg samples newEventDetector
    have hp := chain_pairwise cfg.refractoryPeriod hR _ _ hchain
    have hp2 := (List.pairwise_map).mp hp
    exact hp2.imp (fun {e₁ e₂} hsep =>
      not_lt.mpr (le_trans hsep (le_abs_self _)))
  · apply pairwise_of_total
    intro e₁ e₂ hlt
    exact hR (le_of_lt (lt_of_le_of_lt (abs_nonneg _) hlt))

/-- Reading the last `k` entries of a list by index is taking its final
`k`-element suffix. -/
theorem range_map_getD_drop (l : List ℚ) (k : Nat) (hk : k ≤ l.length) :
    (List.range k).map (fun i => l.getD (l.length - k + i) 0)
      = l.drop (l.length - k) := by
  apply List.ext_getElem
  · simp
    omega
  · intro i h1 h2
    simp only [List.getElem_map, List.getElem_range, List.getElem_drop]
    rw [List.getD_eq_getElem]

/-- C7 amended, general form: on every series of length at least 5 the
computation is well-defined and the overshoot equals
`max 0 (m − 0.05)`, where the tail is the mean of the last
`max 2 ⌊n/4⌋` values and `m` is the maximum of `|bn − tail|` over the last
`max 5 ⌊n/3⌋` values. -/
theorem c7_overshoot_amended (bn : List ℚ) (h5 : 5 ≤ bn.length) :
    calculateOvershoot bn
      = some (max 0
          ((bn.drop (bn.length - max 5 (bn.length / 3))).foldl
            (fun a x =>
              max a |x - (bn.drop (bn.length - max 2 (bn.length / 4))).sum
                / ((max 2 (bn.length / 4) : Nat) : ℚ)|) 0 - 5 / 100)) := by
  have h4 : ¬ bn.length < 4 := by omega
  have ht3 : max 5 (bn.length / 3) ≤ bn.length := by
    have := Nat.div_le_self bn.length 3
    omega
  have ht4 : max 2 (bn.length / 4) ≤ bn.length := by
    have := Nat.div_le_self bn.length 4
    omega
  simp only [calculateOvershoot, if_neg h4, if_pos ht3, sumIdx, maxDevIdx]
  rw [show bn.length - (bn.length - max 2 (bn.length / 4)) = max 2 (bn.length / 4)
      from by omega]
  rw [show bn.length - (bn.length - max 5 (bn.length / 3)) = max 5 (bn.length / 3)
      from by omega]
  rw [range_map_getD_drop bn (max 2 (bn.length / 4)) ht4]
  rw [← List.foldl_map (fun i => bn.getD (bn.length - max 5 (bn.length / 3) + i) 0)
      (fun (a x : ℚ) => max a |x - (bn.drop (bn.length - max 2 (bn.length / 4))).sum
        / ((max 2 (bn.length / 4) : Nat) : ℚ)|)
      (List.range (max 5 (bn.length / 3))) 0]
  rw [range_map_getD_drop bn (max 5 (bn.length / 3)) ht3]

/-- Witness for C7 amended at the concrete series `[1, 0, 0, 0, 0]`. -/
theorem c7_overshoot_amended_witness :
    calculateOvershoot [1, 0, 0, 0, 0] = some (19 / 20) := by
  rw [c7_overshoot_amended [1, 0, 0, 0, 0] (by norm_num)]
  norm_num

/-- C7 counterexample: on the twelve-sample window `c7Samples` the tack rule
fires and the emitted event reports overshoot 0.35, while the claim's
last-quarter/last-third formula yields 0 on the same boom series (the code
takes the deviation maximum over the last `max 5 ⌊n/3⌋ = 5` values, not the
last third); and on the four-sample window `c7Samples4` the tack rule fires
but the overshoot computation indexes out of range (Go panic), so it is not
well-defined on every firing series. -/
theorem c7_overshoot_counterexample :
    (maybeEmit defaultConfig
        { buffer := c7Samples, lastEventTime := -1000000000 } (11/4)).map
        (fun r => r.2.map (fun e => (e.type, e.overshoot)))
      = some (some ("tack", 7/20)) ∧
    (spanIn c7Samples (11/4) defaultConfig.tackDTMax).bnSeries = c7Boom ∧
    overshootSpec c7Boom = 0 ∧
    ((7 : ℚ)/20) ≠ 0 ∧
    calculateOvershoot c7Boom4 = none ∧
    (spanIn c7Samples4 (3/2) defaultConfig.tackDTMax).bnSeries = c7Boom4 ∧
    checkTack defaultConfig c7Samples4 (3/2) = none := by
  refine ⟨?_, ?_, ?_, by norm_num, ?_, ?_, ?_⟩
  · norm_num [maybeEmit, checkCrashGybe, checkNormalGybe, checkTack, checkBoomHit,
      publish, spanIn, defaultConfig, c7Samples, List.filter, maxDropAux,
      tackDirection, calculateOvershoot, sumIdx, maxDevIdx, tackQualityScore,
      goRound, List.range_succ]
    rw [abs_of_nonneg (by norm_num : (0:ℚ) ≤ 2/5)]
    norm_num
  · norm_num [spanIn, defaultConfig, c7Samples, c7Boom, List.filter, maxDropAux]
  · norm_num [overshootSpec, c7Boom]
  · norm_num [calculateOvershoot, c7Boom4]
  · norm_num [spanIn, defaultConfig, c7Samples4, c7Boom4, List.filter, maxDropAux]
  · norm_num [checkTack, spanIn, defaultConfig, c7Samples4, List.filter, maxDropAux,
      tackDirection, calculateOvershoot, sumIdx, maxDevIdx, tackQualityScore,
      goRound, List.range_succ]

/-- The `GetRecent` index expression, computed in Go `int` arithmetic,
equals its natural-number form when head and index are within capacity. -/
theorem idx_toNat (head C i : Nat) (hC : 0 < C) (hi : i < C) :
    (((head : Int) - 1 - i + C) % C).toNat = (head + (C - 1 - i)) % C := by
  have h1 : ((head : Int) - 1 - i + C) = ((head + (C - 1 - i) : Nat) : Int) := by
    omega
  rw [h1, ← Int.natCast_mod, Int.toNat_natCast]

/-- Adding a nonzero offset short of the capacity moves to a different
slot. -/
theorem mod_shift_ne (len k C : Nat) (hk1 : 1 ≤ k) (hk2 : k < C) :
    (len + k) % C ≠ len % C := by
  intro h
  have hmod : Nat.ModEq C len (len + k) := h.symm
  have hdvd : C ∣ (len + k) - len := (Nat.modEq_iff_dvd' (Nat.le_add_right _ _)).mp hmod
  have : C ∣ k := by simpa using hdvd
  have := Nat.le_of_dvd (by omega) this
  omega

/-- State invariant of the ring buffer after pushing a message list into a
fresh buffer of positive capacity: the capacity and array length are fixed,
the size saturates at capacity, the head is the push count modulo capacity,
the slot `(head + C − 1 − i) mod C` holds the `i`-th most recent message,
and the index maps every PGN to its most recent message. -/
theorem pushAll_inv (C : Nat) (hC : 0 < C) (ms : List DecodedMessage) :
    (pushAll (newRingBuffer C) ms).capacity = C ∧
    (pushAll (newRingBuffer C) ms).data.length = C ∧
    (pushAll (newRingBuffer C) ms).size = min ms.length C ∧
    (pushAll (newRingBuffer C) ms).head = ms.length % C ∧
    (∀ i, i < (pushAll (newRingBuffer C) ms).size →
      (pushAll (newRingBuffer C) ms).data.getD
          (((pushAll (newRingBuffer C) ms).head + (C - 1 - i)) % C) default
        = ms.reverse.getD i default) ∧
    (∀ p, (pushAll (newRingBuffer C) ms).latestByPGN p
        = ms.reverse.find? (fun m => m.pgn == p)) := by
  induction ms using List.reverseRecOn with
  | nil =>
    refine ⟨rfl, by simp [pushAll, newRingBuffer], by simp [pushAll, newRingBuffer],
      by simp [pushAll, newRingBuffer], ?_, fun p => rfl⟩
    intro i hi
    simp [pushAll, newRingBuffer] at hi
  | append_singleton ms m ih =>
    obtain ⟨hcap, hlen, hsize, hhead, hidx, hlatest⟩ := ih
    have hstep : pushAll (newRingBuffer C) (ms ++ [m])
        = (pushAll (newRingBuffer C) ms).push m := by
      simp [pushAll]
    have hheadlt : (pushAll (newRingBuffer C) ms).head < C := by
      rw [hhead]; exact Nat.mod_lt _ hC
    refine ⟨?_, ?_, ?_, ?_, ?_, ?_⟩
    · rw [hstep]; simpa [RingBuffer.push] using hcap
    · rw [hstep]; simpa [RingBuffer.push, List.length_set] using hlen
    · rw [hstep]
      simp only [RingBuffer.push, hcap, hsize, List.length_append,
        List.length_singleton]
      split <;> omega
    · rw [hstep]
      simp only [RingBuffer.push, hcap, hhead, List.length_append,
        List.length_singleton, Nat.mod_add_mod]
    · intro i hi
      rw [hstep] at hi ⊢
      simp only [RingBuffer.push, hcap, hhead] at hi ⊢
      have hsize' : (if (pushAll (newRingBuffer C) ms).size < C
          then (pushAll (newRingBuffer C) ms).size + 1
          else (pushAll (newRingBuffer C) ms).size) = min (ms.length + 1) C := by
        rw [hsize]; split <;> omega
      rw [hsize'] at hi
      have hiC : i < C := by omega
      rw [show (ms ++ [m]).reverse = m :: ms.reverse by simp]
      rcases i with _ | j
      · rw [Nat.mod_add_mod,
          show ms.length % C + 1 + (C - 1 - 0) = ms.length % C + C from by omega,
          Nat.add_mod_right, Nat.mod_mod_of_dvd ms.length dvd_rfl]
        rw [List.getD_eq_getElem _ _
          (by rw [List.length_set, hlen]; exact Nat.mod_lt _ hC)]
        rw [List.getElem_set_self]
        rfl
      · have hj : j < (pushAll (newRingBuffer C) ms).size := by
          rw [hsize]; omega
        rw [Nat.mod_add_mod, show ms.length % C + 1 + (C - 1 - (j + 1))
            = ms.length % C + (C - 1 - j) from by omega, Nat.mod_add_mod]
        have hne : ms.length % C ≠ (ms.length + (C - 1 - j)) % C :=
          (mod_shift_ne ms.length (C - 1 - j) C (by omega) (by omega)).symm
        have hlt : (ms.length + (C - 1 - j)) % C
            < (pushAll (newRingBuffer C) ms).data.length := by
          rw [hlen]; exact Nat.mod_lt _ hC
        rw [List.getD_eq_getElem _ _ (by rw [List.length_set]; exact hlt),
          List.getElem_set_ne hne,
          ← List.getD_eq_getElem _ _ hlt, List.getD_cons_succ]
        have := hidx j hj
        rw [hhead, Nat.mod_add_mod] at this
        exact this
    · intro p
      rw [hstep]
      simp only [RingBuffer.push,
        show (ms ++ [m]).reverse = m :: ms.reverse from by simp, List.find?_cons]
      by_cases hp : p = m.pgn
      · have : (m.pgn == p) = true := by simp [hp]
        rw [this]
        simp [hp]
      · have : (m.pgn == p) = false := by simp [Ne.symm hp]
        rw [this]
        simp only [if_neg hp]
        exact hlatest p

/-- Reading the first `k` entries of a list by index is taking its
`k`-element prefix. -/
theorem range_map_getD_take (l : List DecodedMessage) (k : Nat) (hk : k ≤ l.length) :
    (List.range k).map (fun i => l.getD i default) = l.take k := by
  apply List.ext_getElem
  · simp
    omega
  · intro i h1 h2
    simp only [List.getElem_map, List.getElem_range, List.getElem_take]
    rw [List.getD_eq_getElem]

/-- C1: for every push sequence into a fresh buffer of positive capacity
`C`, the size is `min(pushes, C)`, `GetRecent n` returns the
`min(n, size)` most recently pushed messages newest first, and
`GetLatestByPGN p` returns the most recently pushed message with PGN `p`
(absence when none was pushed). -/
theorem c1_ring_buffer (C : Nat) (hC : 0 < C) (ms : List DecodedMessage)
    (n p : Nat) :
    (pushAll (newRingBuffer C) ms).size = min ms.length C ∧
    (pushAll (newRingBuffer C) ms).getRecent n
      = ms.reverse.take (min n (min ms.length C)) ∧
    (pushAll (newRingBuffer C) ms).getLatestByPGN p
      = ms.reverse.find? (fun m => m.pgn == p) := by
  obtain ⟨hcap, hlen, hsize, hhead, hidx, hlatest⟩ := pushAll_inv C hC ms
  refine ⟨hsize, ?_, hlatest p⟩
  simp only [RingBuffer.getRecent]
  have hn : (if n > (pushAll (newRingBuffer C) ms).size
      then (pushAll (newRingBuffer C) ms).size else n)
      = min n (min ms.length C) := by
    rw [hsize]; split <;> omega
  rw [hn]
  have hmap : ∀ i ∈ List.range (min n (min ms.length C)),
      (pushAll (newRingBuffer C) ms).data.getD
        ((((pushAll (newRingBuffer C) ms).head : Int) - 1 - i
          + (pushAll (newRingBuffer C) ms).capacity)
          % (pushAll (newRingBuffer C) ms).capacity).toNat default
      = ms.reverse.getD i default := by
    intro i hi
    rw [List.mem_range] at hi
    have hiC : i < C := by omega
    rw [hcap, idx_toNat _ C i hC hiC]
    exact hidx i (by omega)
  rw [List.map_congr_left hmap]
  exact range_map_getD_take ms.reverse (min n (min ms.length C))
    (by simp only [List.length_reverse]; omega)

/-- Witness for C1 at the S4 scenario: capacity 3, pushes A(pgn 1),
B(pgn 2), C(pgn 1), D(pgn 3); size 3, `GetRecent 2 = [D, C]`,
`GetLatestByPGN 1 = C`. -/
theorem c1_ring_buffer_witness :
    (pushAll (newRingBuffer 3) [s4MsgA, s4MsgB, s4MsgC, s4MsgD]).size = 3 ∧
    (pushAll (newRingBuffer 3) [s4MsgA, s4MsgB, s4MsgC, s4MsgD]).getRecent 2
      = [s4MsgD, s4MsgC] ∧
    (pushAll (newRingBuffer 3) [s4MsgA, s4MsgB, s4MsgC, s4MsgD]).getLatestByPGN 1
      = some s4MsgC := by
  obtain ⟨h1, h2, h3⟩ :=
    c1_ring_buffer 3 (by decide) [s4MsgA, s4MsgB, s4MsgC, s4MsgD] 2 1
  exact ⟨h1.trans (by decide), h2.trans (by decide), h3.trans (by decide)⟩

end Odysail
